import Mathlib

/-!
Verification of the AWS ElastiCache Redis provider
(`pkg/providers/aws/provider_redis.go`) and the custom metrics module
(`pkg/resources/custom_metrics.go`) of cloud-resource-operator.

Go pointers are modelled as `Option`; dereferencing `none` is a Go runtime
panic, modelled by `Outcome.crash`.  Go `error` values are `Option GoErr`.
Calls to remote systems (AWS, Kubernetes) are modelled by an environment
record carrying each call's injected result, and every call performed is
recorded as an `Effect` in a trace, so that ordering and absence of remote
calls can be stated.
-/

namespace CRO

/-- A Go `error` value (the non-nil case).  `aws` carries an awserr code,
`k8sAlreadyExists` models a Kubernetes IsAlreadyExists error. -/
inductive GoErr where
  | aws (code : String) (msg : String)
  | k8sAlreadyExists (msg : String)
  | generic (msg : String)
deriving Repr, DecidableEq

def GoErr.message : GoErr → String
  | .aws _ m => m
  | .k8sAlreadyExists m => m
  | .generic m => m

/-- awserr.Error type assertion: the code when the error is an AWS error. -/
def GoErr.awsCode : GoErr → Option String
  | .aws c _ => some c
  | _ => none

/-- kerrors.IsAlreadyExists -/
def GoErr.isAlreadyExists : GoErr → Bool
  | .k8sAlreadyExists _ => true
  | _ => false

/-- pkg/errors `errorUtil.Wrap` / `Wrapf`: returns nil when err is nil,
otherwise annotates the error with the message. -/
def errorUtilWrap (err : Option GoErr) (msg : String) : Option GoErr :=
  match err with
  | none => none
  | some e => some (.generic (msg ++ ": " ++ e.message))

/-- One remote / external call performed by the provider. -/
inductive Effect where
  | createReplicationGroupCall
  | modifyReplicationGroupCall
  | deleteReplicationGroupCall
  | describeServiceUpdatesCall
  | describeCacheClustersCall
  | getCallerIdentityCall
  | addTagsCall (arn : String) (tags : List (String × String))
  | describeSnapshotsCall
  | setMetricCall (name : String) (labels : List (String × String)) (value : Option Int)
  | alertRuleCreateCall (ruleName : String)
  | alertRuleGetCall (ruleName : String)
  | alertRuleDeleteCall (ruleName : String)
  | removeFinalizerLocal
  | clientUpdateCall
deriving Repr, DecidableEq

def Effect.isSetMetricCall : Effect → Bool
  | .setMetricCall _ _ _ => true
  | _ => false

def Effect.isDescribeServiceUpdatesCall : Effect → Bool
  | .describeServiceUpdatesCall => true
  | _ => false

def Effect.isAddTagsCall : Effect → Bool
  | .addTagsCall _ _ => true
  | _ => false

def Effect.isAlertRuleCreateCall : Effect → Bool
  | .alertRuleCreateCall _ => true
  | _ => false

/-- Result of a Go computation: a value, or a runtime panic (crash). -/
inductive Outcome (α : Type) where
  | ok : α → Outcome α
  | crash : String → Outcome α
deriving Repr

def Outcome.isOk : Outcome α → Bool
  | .ok _ => true
  | .crash _ => false

/-- Go pointer dereference `*p`. -/
def Outcome.deref : Option α → Outcome α
  | some a => .ok a
  | none => .crash "invalid memory address or nil pointer dereference"

/-- Go slice indexing `xs[0]`. -/
def Outcome.index0 : List α → Outcome α
  | a :: _ => .ok a
  | [] => .crash "index out of range"

/-- Go string slicing `s[:len(s)-1]` (panics on the empty string). -/
def goSliceTrimLast (s : String) : Outcome String :=
  if s.length = 0 then .crash "slice bounds out of range"
  else .ok (s.take (s.length - 1))

/-- The provider computation monad: a result (or crash) plus the trace of
remote calls performed, in order. -/
def M (α : Type) : Type := Outcome α × List Effect

def M.bind (x : M α) (f : α → M β) : M β :=
  match x with
  | (.ok a, es) => ((f a).1, es ++ (f a).2)
  | (.crash s, es) => (.crash s, es)

instance : Monad M where
  pure a := (.ok a, [])
  bind := M.bind

def M.liftO (o : Outcome α) : M α := (o, [])

def M.emit (e : Effect) : M Unit := (.ok (), [e])

def M.res (x : M α) : Outcome α := x.1

def M.trace (x : M α) : List Effect := x.2

/-! ### ElastiCache SDK data shapes (fields used by the provider) -/

structure Endpoint where
  address : Option String
  port : Option Int
deriving Repr, DecidableEq

structure NodeGroupMember where
  cacheClusterId : Option String
  preferredAvailabilityZone : Option String
deriving Repr, DecidableEq

structure NodeGroup where
  status : Option String
  primaryEndpoint : Option Endpoint
  nodeGroupMembers : List NodeGroupMember
deriving Repr, DecidableEq

structure ReplicationGroup where
  replicationGroupId : Option String
  status : Option String
  cacheNodeType : Option String
  snapshotRetentionLimit : Option Int
  nodeGroups : List NodeGroup
deriving Repr, DecidableEq

structure CreateReplicationGroupInput where
  replicationGroupId : Option String
  replicationGroupDescription : Option String
  cacheNodeType : Option String
  engine : Option String
  engineVersion : Option String
  numCacheClusters : Option Int
  snapshotRetentionLimit : Option Int
  automaticFailoverEnabled : Option Bool
deriving Repr, DecidableEq

structure ModifyReplicationGroupInput where
  replicationGroupId : Option String
  cacheNodeType : Option String
  snapshotRetentionLimit : Option Int
deriving Repr, DecidableEq

structure DeleteReplicationGroupInput where
  replicationGroupId : Option String
  retainPrimaryCluster : Option Bool
  finalSnapshotIdentifier : Option String
deriving Repr, DecidableEq

structure CacheCluster where
  cacheClusterStatus : Option String
deriving Repr, DecidableEq

structure DescribeCacheClustersOutput where
  cacheClusters : List CacheCluster
deriving Repr, DecidableEq

structure Snapshot where
  snapshotName : Option String
deriving Repr, DecidableEq

structure DescribeSnapshotsOutput where
  snapshots : Option (List Snapshot)
deriving Repr, DecidableEq

/-- elasticache ServiceUpdate; dates are modelled as Unix epoch seconds. -/
structure ServiceUpdate where
  autoUpdateAfterRecommendedApplyByDate : Option Bool
  engine : Option String
  estimatedUpdateTime : Option String
  serviceUpdateDescription : Option String
  serviceUpdateEndDate : Option Int
  serviceUpdateName : Option String
  serviceUpdateRecommendedApplyByDate : Option Int
  serviceUpdateReleaseDate : Option Int
  serviceUpdateSeverity : Option String
  serviceUpdateStatus : Option String
  serviceUpdateType : Option String
deriving Repr, DecidableEq

/-- sts GetCallerIdentityOutput -/
structure Identity where
  account : Option String
deriving Repr, DecidableEq

/-- The Redis custom resource fields the provider reads.  `productNameLabel`
is `r.ObjectMeta.Labels["productName"]` (a missing Go map key reads ""). -/
structure RedisCR where
  name : String
  nameSpace : String
  specType : String
  productNameLabel : String
deriving Repr, DecidableEq

structure RedisDeploymentDetails where
  uri : String
  port : Int
deriving Repr, DecidableEq

/-! ### Constants from provider_redis.go -/

def defaultRedisMaintenanceMetricName : String := "cro_aws_elasticache_service_maintenance"
def defaultRedisInfoMetricName : String := "cro_aws_elasticache_info"
def defaultRedisAvailMetricName : String := "cro_aws_elasticache_available"
def defaultCacheNodeType : String := "cache.t2.micro"
def defaultEngineVersion : String := "3.2.10"
def defaultDescription : String := "A Redis replication group"
def defaultNumCacheClusters : Int := 2
def defaultSnapshotRetention : Int := 30
def errCodeReplicationGroupNotFoundFault : String := "ReplicationGroupNotFoundFault"

/-! ### custom_metrics.go -/

/-- A prometheus GaugeVec: the label key set fixed at registration, plus the
set gauges (one per label-value assignment). -/
structure GaugeVec where
  labelKeys : List String
  gauges : List (List (String × String) × Float)
deriving Repr

/-- The package-level MetricVecs map. -/
structure MetricsState where
  metricVecs : List (String × GaugeVec)
deriving Repr

def lookupVec : List (String × GaugeVec) → String → Option GaugeVec
  | [], _ => none
  | (n, gv) :: rest, name => if n = name then some gv else lookupVec rest name

def updateVec : List (String × GaugeVec) → String → GaugeVec → List (String × GaugeVec)
  | [], _, _ => []
  | (n, gv) :: rest, name, gv' =>
    if n = name then (n, gv') :: rest else (n, gv) :: updateVec rest name gv'

/-- `gv.With(labels).Set(value)`: upsert the gauge for this label set. -/
def GaugeVec.withSet (gv : GaugeVec) (labels : List (String × String)) (value : Float) : GaugeVec :=
  { gv with gauges :=
      if (gv.gauges.filter (fun g => g.1 = labels)).isEmpty
      then gv.gauges ++ [(labels, value)]
      else gv.gauges.map (fun g => if g.1 = labels then (g.1, value) else g) }

/-- `SetMetric` from custom_metrics.go.  When the vector exists the labelled
gauge is set; when it does not, the code creates an empty vector, registers
it and stores it in the map, then returns without setting the gauge. -/
def SetMetric (st : MetricsState) (name : String) (labels : List (String × String))
    (value : Float) : MetricsState × Option GoErr :=
  match lookupVec st.metricVecs name with
  | some gv =>
    ({ metricVecs := updateVec st.metricVecs name (gv.withSet labels value) }, none)
  | none =>
    let keys := labels.map Prod.fst
    let gv : GaugeVec := { labelKeys := keys, gauges := [] }
    ({ metricVecs := st.metricVecs ++ [(name, gv)] }, none)

/-- The value held by the gauge identified by (metric name, label set). -/
def findGauge (st : MetricsState) (name : String) (labels : List (String × String)) :
    Option Float :=
  match lookupVec st.metricVecs name with
  | none => none
  | some gv =>
    match gv.gauges.filter (fun g => g.1 = labels) with
    | [] => none
    | g :: _ => some g.2

/-- `SetMetricCurrentTime` (now = seconds since epoch as float). -/
def SetMetricCurrentTime (st : MetricsState) (name : String)
    (labels : List (String × String)) (now : Float) : MetricsState × Option GoErr :=
  let (st', err) := SetMetric st name labels now
  (st', errorUtilWrap err "unable to set current time gauge vector")

/-! ### Configuration builders -/

/-- `buildElasticacheCreateStrategy`.  `cacheNameRes` is the result of
`BuildInfraNameFromObject` (deterministic name from the CR identity). -/
def buildElasticacheCreateStrategy (cacheNameRes : Except GoErr String)
    (c : CreateReplicationGroupInput) : Except GoErr CreateReplicationGroupInput :=
  let c := { c with automaticFailoverEnabled := some true, engine := some "redis" }
  let c := if c.cacheNodeType = none then { c with cacheNodeType := some defaultCacheNodeType } else c
  let c := if c.replicationGroupDescription = none then { c with replicationGroupDescription := some defaultDescription } else c
  let c := if c.engineVersion = none then { c with engineVersion := some defaultEngineVersion } else c
  let c := if c.numCacheClusters = none then { c with numCacheClusters := some defaultNumCacheClusters } else c
  let c := if c.snapshotRetentionLimit = none then { c with snapshotRetentionLimit := some defaultSnapshotRetention } else c
  match cacheNameRes with
  | .error e => .error (.generic ("failed to retrieve elasticache config: " ++ e.message))
  | .ok cacheName =>
    .ok (if c.replicationGroupId = none then { c with replicationGroupId := some cacheName } else c)

/-- `buildElasticacheUpdateStrategy`: drift detection between the desired
create config and the found replication group. -/
def buildElasticacheUpdateStrategy (elasticacheConfig : CreateReplicationGroupInput)
    (foundConfig : ReplicationGroup) : Outcome (Option ModifyReplicationGroupInput) :=
  match elasticacheConfig.cacheNodeType, foundConfig.cacheNodeType with
  | some desiredNodeType, some foundNodeType =>
    let ec : ModifyReplicationGroupInput :=
      { replicationGroupId := foundConfig.replicationGroupId
        cacheNodeType := none, snapshotRetentionLimit := none }
    let (ec, updateFound) :=
      if desiredNodeType ≠ foundNodeType
      then ({ ec with cacheNodeType := elasticacheConfig.cacheNodeType }, true)
      else (ec, false)
    match elasticacheConfig.snapshotRetentionLimit, foundConfig.snapshotRetentionLimit with
    | some desiredRetention, some foundRetention =>
      let (ec, updateFound) :=
        if desiredRetention ≠ foundRetention
        then ({ ec with snapshotRetentionLimit := elasticacheConfig.snapshotRetentionLimit }, true)
        else (ec, updateFound)
      .ok (if updateFound then some ec else none)
    | _, _ => .crash "invalid memory address or nil pointer dereference"
  | _, _ => .crash "invalid memory address or nil pointer dereference"

/-- `buildElasticacheDeleteConfig`.  `cacheNameRes` and
`snapshotIdentifierRes` are the results of `BuildInfraNameFromObject` and
`buildTimestampedInfraNameFromObject`.  Returns the (possibly mutated)
create config together with the completed delete config. -/
def buildElasticacheDeleteConfig (cacheNameRes snapshotIdentifierRes : Except GoErr String)
    (createCfg : CreateReplicationGroupInput) (deleteCfg : DeleteReplicationGroupInput) :
    Except GoErr (CreateReplicationGroupInput × DeleteReplicationGroupInput) :=
  match cacheNameRes with
  | .error e => .error (.generic ("failed to retrieve elasticache config: " ++ e.message))
  | .ok cacheName =>
    let p :=
      if deleteCfg.replicationGroupId = none then
        let createCfg :=
          if createCfg.replicationGroupId = none
          then { createCfg with replicationGroupId := some cacheName }
          else createCfg
        (createCfg, { deleteCfg with replicationGroupId := createCfg.replicationGroupId })
      else (createCfg, deleteCfg)
    let createCfg := p.1
    let deleteCfg := p.2
    let deleteCfg :=
      if deleteCfg.retainPrimaryCluster = none
      then { deleteCfg with retainPrimaryCluster := some false }
      else deleteCfg
    match snapshotIdentifierRes with
    | .error e => .error (.generic ("failed to retrieve rds config: " ++ e.message))
    | .ok snapshotIdentifier =>
      let deleteCfg :=
        match deleteCfg.finalSnapshotIdentifier with
        | some s =>
          if s = "" then { deleteCfg with finalSnapshotIdentifier := some snapshotIdentifier }
          else deleteCfg
        | none => deleteCfg
      .ok (createCfg, deleteCfg)

/-- The `for _, c := range rgs` lookup loop shared by the create and delete
paths: find the group whose (dereferenced) id equals the config id. -/
def findReplicationGroup : List ReplicationGroup → Option String → Outcome (Option ReplicationGroup)
  | [], _ => .ok none
  | c :: rest, idOpt =>
    match c.replicationGroupId, idOpt with
    | some cid, some id => if cid = id then .ok (some c) else findReplicationGroup rest idOpt
    | _, _ => .crash "invalid memory address or nil pointer dereference"

/-! ### Metric label builders and metric emission -/

def buildRedisGenericMetricLabels (r : RedisCR) (cache : ReplicationGroup)
    (clusterID : String) : Outcome (List (String × String)) :=
  match cache.replicationGroupId with
  | none => .crash "invalid memory address or nil pointer dereference"
  | some instanceID =>
    .ok [("clusterID", clusterID), ("resourceID", r.name),
         ("namespace", r.nameSpace), ("instanceID", instanceID)]

def buildRedisInfoMetricLables (r : RedisCR) (cache : ReplicationGroup)
    (clusterID : String) : Outcome (List (String × String)) :=
  match buildRedisGenericMetricLabels r cache clusterID with
  | .crash s => .crash s
  | .ok labels =>
    match cache.status with
    | none => .crash "invalid memory address or nil pointer dereference"
    | some st => .ok (labels ++ [("status", st)])

/-- `exposeRedisMetrics`: info metric (current time) plus availability
metric (1 when available, else 0).  `resources.SetMetric` never returns an
error, so the only error source is the cluster-id lookup. -/
def exposeRedisMetrics (clusterIDRes : Except GoErr String) (cr : RedisCR)
    (inst : ReplicationGroup) : M (Option GoErr) :=
  match clusterIDRes with
  | .error e => (.ok (some (.generic ("failed to get cluster id: " ++ e.message))), [])
  | .ok clusterID =>
    match buildRedisInfoMetricLables cr inst clusterID with
    | .crash s => (.crash s, [])
    | .ok infoLabels =>
      match buildRedisGenericMetricLabels cr inst clusterID with
      | .crash s => (.crash s, [])
      | .ok genericLabels =>
        match inst.status with
        | none =>
          (.crash "invalid memory address or nil pointer dereference",
           [.setMetricCall defaultRedisInfoMetricName infoLabels none])
        | some st =>
          if st ≠ "available" then
            (.ok none,
             [.setMetricCall defaultRedisInfoMetricName infoLabels none,
              .setMetricCall defaultRedisAvailMetricName genericLabels (some 0)])
          else
            (.ok none,
             [.setMetricCall defaultRedisInfoMetricName infoLabels none,
              .setMetricCall defaultRedisAvailMetricName genericLabels (some 1)])

/-- strconv.FormatBool -/
def formatBool (b : Bool) : String := if b then "true" else "false"

/-- The label map built for one service update in
`setRedisServiceMaintenanceMetric` (every field dereferenced). -/
def serviceUpdateLabels (clusterID : String) (su : ServiceUpdate) :
    Outcome (List (String × String)) :=
  match su.autoUpdateAfterRecommendedApplyByDate, su.engine, su.estimatedUpdateTime,
        su.serviceUpdateDescription, su.serviceUpdateEndDate, su.serviceUpdateName,
        su.serviceUpdateRecommendedApplyByDate, su.serviceUpdateReleaseDate,
        su.serviceUpdateSeverity, su.serviceUpdateStatus, su.serviceUpdateType with
  | some auto, some eng, some est, some desc, some endDate, some nm, some recDate,
      some relDate, some sev, some st, some ty =>
    .ok [("clusterID", clusterID),
         ("AutoUpdateAfterRecommendedApplyByDate", formatBool auto),
         ("Engine", eng),
         ("EstimatedUpdateTime", est),
         ("ServiceUpdateDescription", desc),
         ("ServiceUpdateEndDate", toString endDate),
         ("ServiceUpdateName", nm),
         ("ServiceUpdateRecommendedApplyByDate", toString recDate),
         ("ServiceUpdateReleaseDate", toString relDate),
         ("ServiceUpdateSeverity", sev),
         ("ServiceUpdateStatus", st),
         ("ServiceUpdateType", ty)]
  | _, _, _, _, _, _, _, _, _, _, _ => .crash "invalid memory address or nil pointer dereference"

/-- The per-update loop body of `setRedisServiceMaintenanceMetric`
(`SetMetric` never fails, so the loop only stops on a panic). -/
def setMaintenanceLoop (clusterID : String) : List ServiceUpdate → M (Option GoErr)
  | [] => (.ok none, [])
  | su :: rest =>
    M.bind (M.liftO (serviceUpdateLabels clusterID su)) fun labels =>
    M.bind (M.liftO (Outcome.deref su.serviceUpdateRecommendedApplyByDate)) fun ts =>
    M.bind (M.emit (.setMetricCall defaultRedisMaintenanceMetricName labels (some ts))) fun _ =>
    setMaintenanceLoop clusterID rest

/-- `setRedisServiceMaintenanceMetric`. -/
def setRedisServiceMaintenanceMetric (clusterIDRes : Except GoErr String)
    (describeServiceUpdatesRes : Except GoErr (List ServiceUpdate)) : M (Option GoErr) :=
  match clusterIDRes with
  | .error e => (.ok (some (.generic ("failed to get cluster id: " ++ e.message))), [])
  | .ok clusterID =>
    M.bind (M.emit .describeServiceUpdatesCall) fun _ =>
    match describeServiceUpdatesRes with
    | .error e => (.ok (some (.generic ("elasticache serviceupdates error: " ++ e.message))), [])
    | .ok sus => setMaintenanceLoop clusterID sus

/-! ### Tagging subsystem -/

/-- Injected results for the external calls made by `TagElasticacheNode`
for one node. -/
structure TagEnv where
  describeCacheClustersRes : Except GoErr DescribeCacheClustersOutput
  getCallerIdentityRes : Except GoErr Identity
  clusterIDRes : Except GoErr String
  organizationTag : String
  addTagsNodeRes : Option GoErr
  describeSnapshotsRes : Option DescribeSnapshotsOutput × Option GoErr
  addTagsSnapshotRes : String → Option GoErr

/-- The per-snapshot tagging loop.  Returns `some (msg, err)` when the loop
returned early with an error, `none` when it ran to completion. -/
def tagSnapshotsLoop (env : TagEnv) (region account : String)
    (cacheTags : List (String × String)) :
    List Snapshot → M (Option (String × Option GoErr))
  | [] => (.ok none, [])
  | s :: rest =>
    M.bind (M.liftO (Outcome.deref s.snapshotName)) fun snapshotName =>
    let snapshotArn := "arn:aws:elasticache:" ++ region ++ ":" ++ account ++ ":snapshot:" ++ snapshotName
    M.bind (M.emit (.addTagsCall snapshotArn cacheTags)) fun _ =>
    match env.addTagsSnapshotRes snapshotArn with
    | some e => (.ok (some ("failed to add tags to aws elasticache snapshot", some e)), [])
    | none => tagSnapshotsLoop env region account cacheTags rest

/-- `TagElasticacheNode`: returns the Go (StatusMessage, error) pair. -/
def TagElasticacheNode (env : TagEnv) (r : RedisCR) (cache : NodeGroupMember) :
    M (String × Option GoErr) :=
  M.bind (M.emit .describeCacheClustersCall) fun _ =>
  match env.describeCacheClustersRes with
  | .error e =>
    (.ok ("failed to get cache cluster output",
          errorUtilWrap (some e) "failed to get cache cluster output"), [])
  | .ok cacheClusterOutput =>
    M.bind (M.liftO (Outcome.index0 cacheClusterOutput.cacheClusters)) fun cc =>
    M.bind (M.liftO (Outcome.deref cc.cacheClusterStatus)) fun clusterStatus =>
    if clusterStatus ≠ "available" then
      M.bind (M.liftO (Outcome.deref cache.cacheClusterId)) fun cid =>
      let errMsg := cid ++ " status is " ++ clusterStatus ++ ", skipping adding tags"
      (.ok (errMsg, errorUtilWrap none errMsg), [])
    else
      M.bind (M.emit .getCallerIdentityCall) fun _ =>
      match env.getCallerIdentityRes with
      | .error e =>
        (.ok ("failed to get account identity",
              errorUtilWrap (some e) "failed to get account identity"), [])
      | .ok ident =>
        M.bind (M.liftO (Outcome.deref cache.preferredAvailabilityZone)) fun zone =>
        M.bind (M.liftO (goSliceTrimLast zone)) fun region =>
        M.bind (M.liftO (Outcome.deref ident.account)) fun account =>
        M.bind (M.liftO (Outcome.deref cache.cacheClusterId)) fun cid =>
        let arn := "arn:aws:elasticache:" ++ region ++ ":" ++ account ++ ":cluster:" ++ cid
        match env.clusterIDRes with
        | .error e =>
          (.ok ("failed to get cluster id", errorUtilWrap (some e) "failed to get cluster id"), [])
        | .ok clusterID =>
          let cacheTags :=
            [(env.organizationTag ++ "clusterID", clusterID),
             (env.organizationTag ++ "resource-type", r.specType),
             (env.organizationTag ++ "resource-name", r.name)]
          let cacheTags :=
            if r.productNameLabel ≠ ""
            then cacheTags ++ [(env.organizationTag ++ "product-name", r.productNameLabel)]
            else cacheTags
          M.bind (M.emit (.addTagsCall arn cacheTags)) fun _ =>
          match env.addTagsNodeRes with
          | some e => (.ok ("failed to add tags to aws elasticache :", some e), [])
          | none =>
            M.bind (M.emit .describeSnapshotsCall) fun _ =>
            M.bind (M.liftO (Outcome.deref env.describeSnapshotsRes.1)) fun snapshotList =>
            match snapshotList.snapshots with
            | none => (.ok ("successfully created and tagged", none), [])
            | some snaps =>
              M.bind (tagSnapshotsLoop env region account cacheTags snaps) fun early =>
              match early with
              | some p => (.ok p, [])
              | none => (.ok ("successfully created and tagged", none), [])

/-! ### Alert rule management -/

/-- `CreateElastiCacheAvailabilityAlert`: builds the rule and issues the
Kubernetes create; an IsAlreadyExists error is tolerated. -/
def CreateElastiCacheAvailabilityAlert (clientCreateRes : Option GoErr) (r : RedisCR)
    (instanceID clusterID : String) : M (Option GoErr) :=
  let alertRuleName := "cro-aws-elasticache-" ++ instanceID
  let _alertExp := "absent(cro_aws_elasticache_available\x7bnamespace='" ++ r.nameSpace ++
    "',instanceID='" ++ instanceID ++ "',clusterID='" ++ clusterID ++
    "',resourceID='" ++ r.name ++ "'\x7d == 1)"
  M.bind (M.emit (.alertRuleCreateCall alertRuleName)) fun _ =>
  match clientCreateRes with
  | some e =>
    if e.isAlreadyExists then (.ok none, [])
    else (.ok (some (.generic ("exception calling Create metricName: " ++ alertRuleName ++
            ": " ++ e.message))), [])
  | none => (.ok none, [])

/-- `DeleteElastiCacheAvailabilityAlert`: a failed lookup (including a
not-found) or a failed delete is returned as an error. -/
def DeleteElastiCacheAvailabilityAlert (alertGetRes alertDeleteRes : Option GoErr)
    (instanceID : String) : M (Option GoErr) :=
  let alertRuleName := "cro-aws-elasticache-" ++ instanceID
  M.bind (M.emit (.alertRuleGetCall alertRuleName)) fun _ =>
  match alertGetRes with
  | some e =>
    (.ok (some (.generic ("exception calling DeleteElastiCacheAvailabilityAlert: " ++
          alertRuleName ++ ": " ++ e.message))), [])
  | none =>
    M.bind (M.emit (.alertRuleDeleteCall alertRuleName)) fun _ =>
    match alertDeleteRes with
    | some e =>
      (.ok (some (.generic ("exception calling DeleteElastiCacheAvailabilityAlert: " ++
            alertRuleName ++ ": " ++ e.message))), [])
    | none => (.ok none, [])

/-! ### Convergence engine: create path -/

/-- Injected results for the external calls made by
`createElasticacheCluster`. -/
structure CreateEnv where
  rgsRes : Except GoErr (List ReplicationGroup)
  cacheNameRes : Except GoErr String
  createReplicationGroupRes : Option GoErr
  describeServiceUpdatesRes : Except GoErr (List ServiceUpdate)
  clusterIDRes : Except GoErr String
  clientCreateAlertRes : Option GoErr
  modifyRes : Option GoErr
  tagEnv : NodeGroupMember → TagEnv

/-- The `for _, cache := range cacheInstance.NodeGroupMembers` loop.
Returns `some (msg, err)` for the first node whose tagging returned a
non-nil error, `none` when the loop ran to completion. -/
def tagNodesLoop (env : CreateEnv) (r : RedisCR) :
    List NodeGroupMember → M (Option (String × GoErr))
  | [] => (.ok none, [])
  | m :: rest =>
    M.bind (TagElasticacheNode (env.tagEnv m) r m) fun p =>
    match p.2 with
    | some e => (.ok (some (p.1, e)), [])
    | none => tagNodesLoop env r rest

/-- `createElasticacheCluster`: the create-path state machine, returning the
Go triple (cluster details, status message, error). -/
def createElasticacheCluster (env : CreateEnv) (r : RedisCR)
    (elasticacheConfig : CreateReplicationGroupInput) :
    M (Option RedisDeploymentDetails × String × Option GoErr) :=
  match env.rgsRes with
  | .error e =>
    (.ok (none, "error getting replication groups",
          errorUtilWrap (some e) "error getting replication groups"), [])
  | .ok rgs =>
    match buildElasticacheCreateStrategy env.cacheNameRes elasticacheConfig with
    | .error e =>
      (.ok (none, "failed to build and verify aws elasticache create strategy",
            errorUtilWrap (some e) "failed to build and verify aws elasticache create strategy"), [])
    | .ok cfg =>
      M.bind (M.liftO (findReplicationGroup rgs cfg.replicationGroupId)) fun foundCache =>
      match foundCache with
      | none =>
        M.bind (M.emit .createReplicationGroupCall) fun _ =>
        match env.createReplicationGroupRes with
        | some e =>
          (.ok (none, "error creating elasticache cluster " ++ e.message,
                errorUtilWrap (some e) ("error creating elasticache cluster " ++ e.message)), [])
        | none => (.ok (none, "started elasticache provision", none), [])
      | some found =>
        M.bind (setRedisServiceMaintenanceMetric env.clusterIDRes env.describeServiceUpdatesRes) fun mRes =>
        match mRes with
        | some e =>
          (.ok (none, "error creating the elasticache service maintenance metrics",
                errorUtilWrap (some e) "error creating the elasticache service maintenance metrics"), [])
        | none =>
          M.bind (exposeRedisMetrics env.clusterIDRes r found) fun eRes =>
          match eRes with
          | some e => (.ok (none, "failed to set metric", some e), [])
          | none =>
            M.bind (M.liftO (Outcome.deref found.status)) fun st =>
            if st ≠ "available" then
              (.ok (none, "createReplicationGroup() in progress, current aws elasticache status is " ++ st, none), [])
            else
              match env.clusterIDRes with
              | .error e =>
                (.ok (none, "failed to retrieve cluster identifier",
                      errorUtilWrap (some e) "failed to retrieve cluster identifier"), [])
              | .ok clusterID =>
                M.bind (M.liftO (Outcome.deref found.replicationGroupId)) fun rgid =>
                M.bind (CreateElastiCacheAvailabilityAlert env.clientCreateAlertRes r rgid clusterID) fun aRes =>
                match aRes with
                | some e =>
                  (.ok (none, "error creating the elasticache PrometheusRule",
                        errorUtilWrap (some e) "error creating the elasticache PrometheusRule"), [])
                | none =>
                  M.bind (M.liftO (buildElasticacheUpdateStrategy cfg found)) fun ec =>
                  match ec with
                  | some _ =>
                    M.bind (M.emit .modifyReplicationGroupCall) fun _ =>
                    match env.modifyRes with
                    | some e =>
                      (.ok (none, "failed to modify elasticache cluster",
                            errorUtilWrap (some e) "failed to modify elasticache cluster"), [])
                    | none =>
                      (.ok (none, "changes detected, modifyDBInstance() in progress, current aws elasticache status is " ++ st, none), [])
                  | none =>
                    M.bind (M.liftO (Outcome.index0 found.nodeGroups)) fun cacheInstance =>
                    M.bind (M.liftO (Outcome.deref cacheInstance.status)) fun ciStatus =>
                    if ciStatus ≠ "available" then
                      (.ok (none, "cache node status not available, current status:  " ++ st, none), [])
                    else
                      M.bind (tagNodesLoop env r cacheInstance.nodeGroupMembers) fun tagRes =>
                      match tagRes with
                      | some p =>
                        (.ok (none, "failed to add tags to elasticache: " ++ p.1,
                              errorUtilWrap (some p.2) ("failed to add tags to elasticache: " ++ p.1)), [])
                      | none =>
                        M.bind (M.liftO (Outcome.index0 found.nodeGroups)) fun ng0 =>
                        M.bind (M.liftO (Outcome.deref ng0.primaryEndpoint)) fun primaryEndpoint =>
                        M.bind (M.liftO (Outcome.deref primaryEndpoint.address)) fun addr =>
                        M.bind (M.liftO (Outcome.deref primaryEndpoint.port)) fun port =>
                        (.ok (some { uri := addr, port := port },
                              "successfully created and tagged, aws elasticache status is " ++ st, none), [])

/-! ### Convergence engine: delete path -/

/-- Injected results for the external calls made by
`deleteElasticacheCluster`. -/
structure DeleteEnv where
  rgsRes : Except GoErr (List ReplicationGroup)
  cacheNameRes : Except GoErr String
  snapshotIdentifierRes : Except GoErr String
  clusterIDRes : Except GoErr String
  clientUpdateRes : Option GoErr
  alertGetRes : Option GoErr
  alertDeleteRes : Option GoErr
  deleteReplicationGroupRes : Option GoErr

/-- `deleteElasticacheCluster`: the delete-path state machine, returning the
Go pair (status message, error).  `croType.StatusEmpty` is `""`. -/
def deleteElasticacheCluster (env : DeleteEnv) (r : RedisCR)
    (elasticacheCreateConfig : CreateReplicationGroupInput)
    (elasticacheDeleteConfig : DeleteReplicationGroupInput) : M (String × Option GoErr) :=
  match env.rgsRes with
  | .error e => (.ok ("error getting replication groups", some e), [])
  | .ok rgs =>
    match buildElasticacheDeleteConfig env.cacheNameRes env.snapshotIdentifierRes
        elasticacheCreateConfig elasticacheDeleteConfig with
    | .error e =>
      (.ok ("failed to verify aws rds instance configuration",
            errorUtilWrap (some e) "failed to verify aws rds instance configuration"), [])
    | .ok cfgs =>
      M.bind (M.liftO (findReplicationGroup rgs cfgs.1.replicationGroupId)) fun foundCache =>
      match foundCache with
      | none =>
        M.bind (M.emit .removeFinalizerLocal) fun _ =>
        M.bind (M.emit .clientUpdateCall) fun _ =>
        match env.clientUpdateRes with
        | some e =>
          (.ok ("failed to update instance as part of finalizer reconcile",
                errorUtilWrap (some e) "failed to update instance as part of finalizer reconcile"), [])
        | none => (.ok ("", none), [])
      | some found =>
        M.bind (exposeRedisMetrics env.clusterIDRes r found) fun eRes =>
        match eRes with
        | some e => (.ok ("failed to set metric", some e), [])
        | none =>
          M.bind (M.liftO (Outcome.deref found.status)) fun st =>
          if st ≠ "available" then
            (.ok ("delete detected, deleteReplicationGroup() in progress, current aws elasticache status is " ++ st, none), [])
          else
            M.bind (M.liftO (Outcome.deref found.replicationGroupId)) fun rgid =>
            M.bind (DeleteElastiCacheAvailabilityAlert env.alertGetRes env.alertDeleteRes rgid) fun aRes =>
            match aRes with
            | some e =>
              (.ok ("failed to delete elasticache alert : " ++ e.message,
                    errorUtilWrap (some e) ("failed to delete elasticache alert : " ++ e.message)), [])
            | none =>
              M.bind (M.emit .deleteReplicationGroupCall) fun _ =>
              match env.deleteReplicationGroupRes with
              | none => (.ok ("delete detected, deleteReplicationGroup started", none), [])
              | some e =>
                if e.awsCode = some errCodeReplicationGroupNotFoundFault then
                  (.ok ("delete detected, deleteReplicationGroup started", none), [])
                else
                  (.ok ("failed to delete elasticache cluster : " ++ e.message,
                        errorUtilWrap (some e) ("failed to delete elasticache cluster : " ++ e.message)), [])

/-! ### Well-formedness of observed remote data

The Go code dereferences SDK pointer fields and indexes into lists without
checks.  These predicates collect exactly the conditions needed for no
dereference or indexing to abort: every dereferenced field present,
non-empty NodeGroups / CacheClusters lists, a present describe-snapshots
output, and a non-empty availability-zone string. -/

def wfNodeGroupMember (m : NodeGroupMember) : Bool :=
  m.cacheClusterId.isSome &&
  (match m.preferredAvailabilityZone with
   | some z => decide (z.length ≠ 0)
   | none => false)

def wfSnapshot (s : Snapshot) : Bool := s.snapshotName.isSome

def wfTagEnv (env : TagEnv) : Bool :=
  (match env.describeCacheClustersRes with
   | .ok out =>
     match out.cacheClusters with
     | c :: _ => c.cacheClusterStatus.isSome
     | [] => false
   | .error _ => true) &&
  (match env.getCallerIdentityRes with
   | .ok i => i.account.isSome
   | .error _ => true) &&
  (match env.describeSnapshotsRes.1 with
   | some out =>
     match out.snapshots with
     | some l => l.all wfSnapshot
     | none => true
   | none => false)

def wfServiceUpdate (su : ServiceUpdate) : Bool :=
  su.autoUpdateAfterRecommendedApplyByDate.isSome && su.engine.isSome &&
  su.estimatedUpdateTime.isSome && su.serviceUpdateDescription.isSome &&
  su.serviceUpdateEndDate.isSome && su.serviceUpdateName.isSome &&
  su.serviceUpdateRecommendedApplyByDate.isSome && su.serviceUpdateReleaseDate.isSome &&
  su.serviceUpdateSeverity.isSome && su.serviceUpdateStatus.isSome &&
  su.serviceUpdateType.isSome

def wfNodeGroup (env : CreateEnv) (ng : NodeGroup) : Bool :=
  ng.status.isSome &&
  (match ng.primaryEndpoint with
   | some ep => ep.address.isSome && ep.port.isSome
   | none => false) &&
  ng.nodeGroupMembers.all (fun m => wfNodeGroupMember m && wfTagEnv (env.tagEnv m))

def wfReplicationGroupCreate (env : CreateEnv) (c : ReplicationGroup) : Bool :=
  c.replicationGroupId.isSome && c.status.isSome && c.cacheNodeType.isSome &&
  c.snapshotRetentionLimit.isSome &&
  (match c.nodeGroups with
   | ng :: _ => wfNodeGroup env ng
   | [] => false)

def wfCreateEnv (env : CreateEnv) : Bool :=
  (match env.rgsRes with
   | .ok rgs => rgs.all (wfReplicationGroupCreate env)
   | .error _ => true) &&
  (match env.describeServiceUpdatesRes with
   | .ok sus => sus.all wfServiceUpdate
   | .error _ => true)

def wfReplicationGroupDelete (c : ReplicationGroup) : Bool :=
  c.replicationGroupId.isSome && c.status.isSome

def wfDeleteEnv (env : DeleteEnv) (createCfg : CreateReplicationGroupInput)
    (deleteCfg : DeleteReplicationGroupInput) : Bool :=
  (match env.rgsRes with
   | .ok rgs => rgs.all wfReplicationGroupDelete
   | .error _ => true) &&
  (createCfg.replicationGroupId.isSome || deleteCfg.replicationGroupId.isNone)

/-! ### Concrete fixtures -/

def rC : RedisCR :=
  { name := "example-redis", nameSpace := "redis-ns", specType := "redis", productNameLabel := "" }

def cfgC : CreateReplicationGroupInput :=
  { replicationGroupId := some "example-redis", replicationGroupDescription := none,
    cacheNodeType := none, engine := none, engineVersion := none, numCacheClusters := none,
    snapshotRetentionLimit := none, automaticFailoverEnabled := none }

/-- `cfgC` after `buildElasticacheCreateStrategy`. -/
def cfgBuiltC : CreateReplicationGroupInput :=
  { replicationGroupId := some "example-redis",
    replicationGroupDescription := some defaultDescription,
    cacheNodeType := some defaultCacheNodeType, engine := some "redis",
    engineVersion := some defaultEngineVersion,
    numCacheClusters := some defaultNumCacheClusters,
    snapshotRetentionLimit := some defaultSnapshotRetention,
    automaticFailoverEnabled := some true }

def memberC : NodeGroupMember :=
  { cacheClusterId := some "example-redis-001", preferredAvailabilityZone := some "eu-west-1a" }

def ngAvailableC : NodeGroup :=
  { status := some "available",
    primaryEndpoint := some { address := some "example.cache.amazonaws.com", port := some 6379 },
    nodeGroupMembers := [memberC] }

def rgAvailableC : ReplicationGroup :=
  { replicationGroupId := some "example-redis", status := some "available",
    cacheNodeType := some "cache.t2.micro", snapshotRetentionLimit := some 30,
    nodeGroups := [ngAvailableC] }

def rgCreatingC : ReplicationGroup := { rgAvailableC with status := some "creating" }

def rgEmptyNodeGroupsC : ReplicationGroup := { rgAvailableC with nodeGroups := [] }

def tagEnvOkC : TagEnv :=
  { describeCacheClustersRes := .ok { cacheClusters := [{ cacheClusterStatus := some "available" }] },
    getCallerIdentityRes := .ok { account := some "123456789012" },
    clusterIDRes := .ok "clusterC", organizationTag := "integreatly.org/",
    addTagsNodeRes := none, describeSnapshotsRes := (some { snapshots := none }, none),
    addTagsSnapshotRes := fun _ => none }

def tagEnvSkipC : TagEnv :=
  { tagEnvOkC with
    describeCacheClustersRes := .ok { cacheClusters := [{ cacheClusterStatus := some "creating" }] } }

def envCreateOkC : CreateEnv :=
  { rgsRes := .ok [rgAvailableC], cacheNameRes := .ok "example-redis",
    createReplicationGroupRes := none, describeServiceUpdatesRes := .ok [],
    clusterIDRes := .ok "clusterC", clientCreateAlertRes := none, modifyRes := none,
    tagEnv := fun _ => tagEnvOkC }

def envCreateInProgressC : CreateEnv := { envCreateOkC with rgsRes := .ok [rgCreatingC] }

def envCreateEmptyNodeGroupsC : CreateEnv := { envCreateOkC with rgsRes := .ok [rgEmptyNodeGroupsC] }

def envCreateSkipTagC : CreateEnv := { envCreateOkC with tagEnv := fun _ => tagEnvSkipC }

def deleteCfgC : DeleteReplicationGroupInput :=
  { replicationGroupId := none, retainPrimaryCluster := none, finalSnapshotIdentifier := none }

def envDeleteAbsentC : DeleteEnv :=
  { rgsRes := .ok [], cacheNameRes := .ok "example-redis",
    snapshotIdentifierRes := .ok "example-redis-1600000000", clusterIDRes := .ok "clusterC",
    clientUpdateRes := none, alertGetRes := none, alertDeleteRes := none,
    deleteReplicationGroupRes := none }

def envDeletePresentC : DeleteEnv := { envDeleteAbsentC with rgsRes := .ok [rgAvailableC] }

def envDeleteNotFoundErrC : DeleteEnv :=
  { envDeletePresentC with
    deleteReplicationGroupRes := some (.aws errCodeReplicationGroupNotFoundFault "replication group not found") }

def envDeleteAlertMissingC : DeleteEnv :=
  { envDeletePresentC with alertGetRes := some (.generic "prometheusrules not found") }

/-- Drift fixture: desired node type differs from the observed one. -/
def cfgDriftC : CreateReplicationGroupInput := { cfgBuiltC with cacheNodeType := some "cache.m5.large" }

/-- A create config with every field supplied by the operator. -/
def cfgOperatorC : CreateReplicationGroupInput :=
  { replicationGroupId := some "op-id", replicationGroupDescription := some "op-desc",
    cacheNodeType := some "cache.m5.large", engine := some "memcached",
    engineVersion := some "5.0.6", numCacheClusters := some 3,
    snapshotRetentionLimit := some 7, automaticFailoverEnabled := some false }

/-! ## Theorems -/

@[simp] theorem M.bind_okPair (a : α) (es : List Effect) (f : α → M β) :
    M.bind (Outcome.ok a, es) f = ((f a).1, es ++ (f a).2) := rfl

@[simp] theorem M.bind_crashPair (s : String) (es : List Effect) (f : α → M β) :
    M.bind (Outcome.crash s, es) f = (Outcome.crash s, es) := rfl

@[simp] theorem M.liftO_eq (o : Outcome α) : M.liftO o = (o, []) := rfl

@[simp] theorem M.emit_eq (e : Effect) : M.emit e = (Outcome.ok (), [e]) := rfl

/-- Characterization of `buildElasticacheCreateStrategy` on a successful
name resolution: the six optional fields are defaulted only when unset
(`getD`), while `engine` and `automaticFailoverEnabled` are always
overwritten. -/
theorem buildCreate_ok_eq (nm : String) (cfg : CreateReplicationGroupInput) :
    buildElasticacheCreateStrategy (.ok nm) cfg = .ok
      { replicationGroupId := some (cfg.replicationGroupId.getD nm),
        replicationGroupDescription := some (cfg.replicationGroupDescription.getD defaultDescription),
        cacheNodeType := some (cfg.cacheNodeType.getD defaultCacheNodeType),
        engine := some "redis",
        engineVersion := some (cfg.engineVersion.getD defaultEngineVersion),
        numCacheClusters := some (cfg.numCacheClusters.getD defaultNumCacheClusters),
        snapshotRetentionLimit := some (cfg.snapshotRetentionLimit.getD defaultSnapshotRetention),
        automaticFailoverEnabled := some true } := by
  obtain ⟨rid, desc, cnt, eng, ev, ncc, srl, afe⟩ := cfg
  cases rid <;> cases desc <;> cases cnt <;> cases ev <;> cases ncc <;> cases srl <;>
    simp [buildElasticacheCreateStrategy]

theorem buildCreate_error_eq (e : GoErr) (cfg : CreateReplicationGroupInput) :
    buildElasticacheCreateStrategy (.error e) cfg =
      .error (.generic ("failed to retrieve elasticache config: " ++ e.message)) := rfl

/-- Helper: drift-detection characterization (used both by the C5 claim
and by the no-panic development). -/
theorem buildUpdate_eq (cfg : CreateReplicationGroupInput) (g : ReplicationGroup)
    (a b : String) (c d : Int)
    (h1 : cfg.cacheNodeType = some a) (h2 : g.cacheNodeType = some b)
    (h3 : cfg.snapshotRetentionLimit = some c) (h4 : g.snapshotRetentionLimit = some d) :
    buildElasticacheUpdateStrategy cfg g = .ok
      (if a = b ∧ c = d then none
       else some { replicationGroupId := g.replicationGroupId,
                   cacheNodeType := if a = b then none else some a,
                   snapshotRetentionLimit := if c = d then none else some c }) := by
  by_cases hab : a = b <;> by_cases hcd : c = d <;>
    simp [buildElasticacheUpdateStrategy, h1, h2, h3, h4, hab, hcd]

/-- C2 counterexample: the operator-supplied `engine` ("memcached") and
`automaticFailoverEnabled` (false) are overwritten by
`buildElasticacheCreateStrategy`, so not every operator-supplied field is
left unchanged. -/
theorem buildElasticacheCreateStrategy_overwrites_engine :
    cfgOperatorC.engine = some "memcached" ∧
    cfgOperatorC.automaticFailoverEnabled = some false ∧
    buildElasticacheCreateStrategy (.ok "generated-name") cfgOperatorC =
      .ok { cfgOperatorC with engine := some "redis", automaticFailoverEnabled := some true } :=
  ⟨rfl, rfl, rfl⟩

/-- C2 (amended): `buildElasticacheCreateStrategy` applies the defaults for
node type, description, engine version, cache-cluster count, snapshot
retention and the deterministic identifier only when the corresponding
field is unset (operator-supplied values win for those six fields), but it
unconditionally overwrites `engine` with "redis" and
`automaticFailoverEnabled` with true. -/
theorem buildElasticacheCreateStrategy_defaults_only_when_unset (nm : String)
    (cfg : CreateReplicationGroupInput) :
    buildElasticacheCreateStrategy (.ok nm) cfg = .ok
      { replicationGroupId := some (cfg.replicationGroupId.getD nm),
        replicationGroupDescription := some (cfg.replicationGroupDescription.getD defaultDescription),
        cacheNodeType := some (cfg.cacheNodeType.getD defaultCacheNodeType),
        engine := some "redis",
        engineVersion := some (cfg.engineVersion.getD defaultEngineVersion),
        numCacheClusters := some (cfg.numCacheClusters.getD defaultNumCacheClusters),
        snapshotRetentionLimit := some (cfg.snapshotRetentionLimit.getD defaultSnapshotRetention),
        automaticFailoverEnabled := some true } :=
  buildCreate_ok_eq nm cfg

/-- C3: on the first call for a new metric name, `SetMetric` registers a
new (empty) gauge vector under that name, with the label key set taken from
the call's labels, but returns without setting the labelled gauge: the
gauge identified by (name, labels) does not hold the passed value. -/
theorem SetMetric_first_call_registers_without_setting_gauge :
    (SetMetric { metricVecs := [] } "cro_test_metric" [("label", "v")] 5.0).2 = none ∧
    lookupVec (SetMetric { metricVecs := [] } "cro_test_metric" [("label", "v")] 5.0).1.metricVecs
      "cro_test_metric" = some { labelKeys := ["label"], gauges := [] } ∧
    findGauge (SetMetric { metricVecs := [] } "cro_test_metric" [("label", "v")] 5.0).1
      "cro_test_metric" [("label", "v")] = none :=
  ⟨rfl, rfl, rfl⟩

/-- C5: the drift detector compares exactly the cache node type and the
snapshot retention limit by exact equality; when both are equal it returns
no modify request (none), otherwise a modify request carrying the found
group's identifier plus only the differing fields. -/
theorem buildElasticacheUpdateStrategy_drift (cfg : CreateReplicationGroupInput)
    (g : ReplicationGroup) (a b : String) (c d : Int)
    (h1 : cfg.cacheNodeType = some a) (h2 : g.cacheNodeType = some b)
    (h3 : cfg.snapshotRetentionLimit = some c) (h4 : g.snapshotRetentionLimit = some d) :
    buildElasticacheUpdateStrategy cfg g = .ok
      (if a = b ∧ c = d then none
       else some { replicationGroupId := g.replicationGroupId,
                   cacheNodeType := if a = b then none else some a,
                   snapshotRetentionLimit := if c = d then none else some c }) :=
  buildUpdate_eq cfg g a b c d h1 h2 h3 h4

/-- C5 witness: with desired node type cache.m5.large against observed
cache.t2.micro (retention equal), the modify request contains the
identifier and only the node type. -/
theorem buildElasticacheUpdateStrategy_drift_witness :
    buildElasticacheUpdateStrategy cfgDriftC rgAvailableC = .ok
      (some { replicationGroupId := some "example-redis",
              cacheNodeType := some "cache.m5.large", snapshotRetentionLimit := none }) := by
  have h := buildElasticacheUpdateStrategy_drift cfgDriftC rgAvailableC
    "cache.m5.large" "cache.t2.micro" 30 30 rfl rfl rfl rfl
  exact h.trans (by rfl)

/-- C8: `buildElasticacheDeleteConfig` fills the final-snapshot-identifier
with the timestamped deterministic name exactly when the field is present
and empty; an absent field stays absent and a non-empty value is kept. -/
theorem buildElasticacheDeleteConfig_finalSnapshot (cc : CreateReplicationGroupInput)
    (dc : DeleteReplicationGroupInput) (nm ts : String) :
    ∃ p, buildElasticacheDeleteConfig (.ok nm) (.ok ts) cc dc = .ok p ∧
      p.2.finalSnapshotIdentifier =
        (match dc.finalSnapshotIdentifier with
         | none => none
         | some s => if s = "" then some ts else some s) := by
  obtain ⟨did, rpc, fsi⟩ := dc
  cases did <;> cases rpc <;> cases fsi <;> refine ⟨_, rfl, ?_⟩ <;>
    simp [buildElasticacheDeleteConfig] <;> split <;> simp

/-! ### Trace decomposition lemmas -/

theorem M.mem_bind_trace {x : M α} {f : α → M β} {e : Effect}
    (h : e ∈ (M.bind x f).2) : e ∈ x.2 ∨ ∃ a, x.1 = .ok a ∧ e ∈ (f a).2 := by
  rcases x with ⟨o, es⟩
  cases o with
  | ok a =>
    simp only [M.bind_okPair, List.mem_append] at h
    rcases h with h | h
    · exact .inl h
    · exact .inr ⟨a, rfl, h⟩
  | crash s => exact .inl h

theorem M.mem_trace_bind_left {x : M α} (f : α → M β) {e : Effect} (h : e ∈ x.2) :
    e ∈ (M.bind x f).2 := by
  rcases x with ⟨o, es⟩
  cases o with
  | ok a => simp only [M.bind_okPair, List.mem_append]; exact .inl h
  | crash s => exact h

theorem isAlertCreate_false_of_isSetMetric {e : Effect} (h : e.isSetMetricCall = true) :
    e.isAlertRuleCreateCall = false := by
  cases e <;> simp_all [Effect.isSetMetricCall, Effect.isAlertRuleCreateCall]

/-- Every effect emitted by the maintenance-metric loop is a SetMetric call. -/
theorem setMaintenanceLoop_trace (clusterID : String) (l : List ServiceUpdate) :
    ∀ e ∈ (setMaintenanceLoop clusterID l).2, e.isSetMetricCall = true := by
  induction l with
  | nil => intro e he; simp [setMaintenanceLoop] at he
  | cons su rest ih =>
    intro e he
    rw [setMaintenanceLoop] at he
    cases hsl : serviceUpdateLabels clusterID su with
    | crash s => simp [hsl] at he
    | ok labels =>
      cases hts : su.serviceUpdateRecommendedApplyByDate with
      | none => simp [hsl, hts, Outcome.deref] at he
      | some ts =>
        simp [hsl, hts, Outcome.deref] at he
        rcases he with he | he
        · subst he; rfl
        · exact ih e he

/-- Every effect emitted by `setRedisServiceMaintenanceMetric` is a
SetMetric call or the service-updates describe call. -/
theorem setRedisServiceMaintenanceMetric_trace (cid : Except GoErr String)
    (sres : Except GoErr (List ServiceUpdate)) :
    ∀ e ∈ (setRedisServiceMaintenanceMetric cid sres).2,
      e.isSetMetricCall = true ∨ e = .describeServiceUpdatesCall := by
  intro e he
  unfold setRedisServiceMaintenanceMetric at he
  cases cid with
  | error e2 => simp at he
  | ok clusterID =>
    simp only [M.emit_eq, M.bind_okPair, List.mem_append, List.mem_singleton] at he
    rcases he with he | he
    · exact .inr he
    · cases sres with
      | error e3 => simp at he
      | ok sus => exact .inl (setMaintenanceLoop_trace clusterID sus e he)

/-- Every effect emitted by `exposeRedisMetrics` is a SetMetric call. -/
theorem exposeRedisMetrics_trace (cid : Except GoErr String) (cr : RedisCR)
    (inst : ReplicationGroup) :
    ∀ e ∈ (exposeRedisMetrics cid cr inst).2, e.isSetMetricCall = true := by
  intro e he
  unfold exposeRedisMetrics at he
  repeat' split at he
  all_goals try simp_all
  all_goals rcases he with rfl | rfl <;> rfl

/-- `CreateElastiCacheAvailabilityAlert` always performs exactly the one
alert-rule create call, whatever the Kubernetes client answers. -/
theorem createAlert_trace (res : Option GoErr) (r : RedisCR) (iid cid : String) :
    (CreateElastiCacheAvailabilityAlert res r iid cid).2 =
      [.alertRuleCreateCall ("cro-aws-elasticache-" ++ iid)] := by
  unfold CreateElastiCacheAvailabilityAlert
  cases res with
  | none => rfl
  | some e => cases he : e.isAlreadyExists <;> simp [he]

/-- The effects of `DeleteElastiCacheAvailabilityAlert` are only the
alert-rule get and delete calls. -/
theorem deleteAlert_trace_content (gRes dRes : Option GoErr) (iid : String) :
    ∀ e ∈ (DeleteElastiCacheAvailabilityAlert gRes dRes iid).2,
      e = .alertRuleGetCall ("cro-aws-elasticache-" ++ iid) ∨
      e = .alertRuleDeleteCall ("cro-aws-elasticache-" ++ iid) := by
  intro e he
  unfold DeleteElastiCacheAvailabilityAlert at he
  cases gRes with
  | some e2 => simp at he; exact .inl he
  | none =>
    cases dRes with
    | some e2 => simp at he; tauto
    | none => simp at he; tauto

/-! ### C1: alert-rule creation on the create path -/

/-- C1 (amended): on the create path, when the replication group is
observed present, the availability alert rule is created that tick only if
the observed status is "available"; for any other status the tick returns
the in-progress message without ever issuing the alert-rule create call
(the alert is created before drift modification and tagging, but it is
gated on the group having reached "available"). -/
theorem createPath_alertRule_gated_on_available (env : CreateEnv) (r : RedisCR)
    (cfgIn cfg : CreateReplicationGroupInput) (rgs : List ReplicationGroup)
    (found : ReplicationGroup) (st : String) (tr1 tr2 : List Effect)
    (h1 : env.rgsRes = .ok rgs)
    (h2 : buildElasticacheCreateStrategy env.cacheNameRes cfgIn = .ok cfg)
    (h3 : findReplicationGroup rgs cfg.replicationGroupId = .ok (some found))
    (h4 : setRedisServiceMaintenanceMetric env.clusterIDRes env.describeServiceUpdatesRes = (.ok none, tr1))
    (h5 : exposeRedisMetrics env.clusterIDRes r found = (.ok none, tr2))
    (h6 : found.status = some st) :
    (st ≠ "available" →
      createElasticacheCluster env r cfgIn =
        (.ok (none, "createReplicationGroup() in progress, current aws elasticache status is " ++ st, none),
         tr1 ++ tr2) ∧
      ∀ e ∈ (createElasticacheCluster env r cfgIn).2, e.isAlertRuleCreateCall = false) ∧
    (∀ cid iid, st = "available" → env.clusterIDRes = .ok cid → found.replicationGroupId = some iid →
      Effect.alertRuleCreateCall ("cro-aws-elasticache-" ++ iid) ∈
        (createElasticacheCluster env r cfgIn).2) := by
  constructor
  · intro hst
    have heq : createElasticacheCluster env r cfgIn =
        (.ok (none, "createReplicationGroup() in progress, current aws elasticache status is " ++ st, none),
         tr1 ++ tr2) := by
      unfold createElasticacheCluster
      rw [h1, h2]
      simp [h3, h4, h5, h6, Outcome.deref, hst]
    refine ⟨heq, ?_⟩
    rw [heq]
    intro e he
    simp only [List.mem_append] at he
    rcases he with he | he
    · have htr1 : e ∈ (setRedisServiceMaintenanceMetric env.clusterIDRes env.describeServiceUpdatesRes).2 := by
        rw [h4]; exact he
      rcases setRedisServiceMaintenanceMetric_trace env.clusterIDRes env.describeServiceUpdatesRes e htr1 with h | h
      · exact isAlertCreate_false_of_isSetMetric h
      · subst h; rfl
    · have htr2 : e ∈ (exposeRedisMetrics env.clusterIDRes r found).2 := by
        rw [h5]; exact he
      exact isAlertCreate_false_of_isSetMetric (exposeRedisMetrics_trace env.clusterIDRes r found e htr2)
  · intro cid iid hst hcid hiid
    subst hst
    unfold createElasticacheCluster
    rw [h1, h2]
    simp [h3, h4, h5, h6, hiid, Outcome.deref]
    simp [hcid]
    refine Or.inr (Or.inr ?_)
    refine M.mem_trace_bind_left _ ?_
    rw [createAlert_trace]
    simp

/-- C1 counterexample: the replication group is observed present with a
known identifier but status "creating"; the tick returns the in-progress
status and the trace contains no alert-rule create call, refuting the claim
that alert-rule creation is not gated on the "available" status. -/
theorem createPath_alert_not_created_when_status_creating :
    (createElasticacheCluster envCreateInProgressC rC cfgC).1 =
      .ok (none, "createReplicationGroup() in progress, current aws elasticache status is creating", none) ∧
    (createElasticacheCluster envCreateInProgressC rC cfgC).2.all
      (fun e => !e.isAlertRuleCreateCall) = true :=
  ⟨rfl, rfl⟩

/-- C1 witness: with the group observed "available" (and the preceding
metric steps succeeding), the alert-rule create call is in the tick's
trace. -/
theorem createPath_alertRule_gated_on_available_witness :
    Effect.alertRuleCreateCall "cro-aws-elasticache-example-redis" ∈
      (createElasticacheCluster envCreateOkC rC cfgC).2 := by
  have h := createPath_alertRule_gated_on_available envCreateOkC rC cfgC cfgBuiltC
    [rgAvailableC] rgAvailableC "available"
    [Effect.describeServiceUpdatesCall]
    [Effect.setMetricCall defaultRedisInfoMetricName
      [("clusterID", "clusterC"), ("resourceID", "example-redis"), ("namespace", "redis-ns"),
       ("instanceID", "example-redis"), ("status", "available")] none,
     Effect.setMetricCall defaultRedisAvailMetricName
      [("clusterID", "clusterC"), ("resourceID", "example-redis"), ("namespace", "redis-ns"),
       ("instanceID", "example-redis")] (some 1)]
    rfl rfl rfl rfl rfl rfl
  exact h.2 "clusterC" "example-redis" rfl rfl rfl

/-! ### Delete-path lemmas -/

/-- The finalizer-removal effect occurs only on the branch where the
replication group was looked up and found absent. -/
theorem deletePath_removeFinalizer_only_if_absent (env : DeleteEnv) (r : RedisCR)
    (cc : CreateReplicationGroupInput) (dc : DeleteReplicationGroupInput)
    (h : Effect.removeFinalizerLocal ∈ (deleteElasticacheCluster env r cc dc).2) :
    ∃ rgs cfgs, env.rgsRes = .ok rgs ∧
      buildElasticacheDeleteConfig env.cacheNameRes env.snapshotIdentifierRes cc dc = .ok cfgs ∧
      findReplicationGroup rgs cfgs.1.replicationGroupId = .ok none := by
  unfold deleteElasticacheCluster at h
  cases h1 : env.rgsRes with
  | error e => rw [h1] at h; simp at h
  | ok rgs =>
    rw [h1] at h
    cases h2 : buildElasticacheDeleteConfig env.cacheNameRes env.snapshotIdentifierRes cc dc with
    | error e => rw [h2] at h; simp at h
    | ok cfgs =>
      rw [h2] at h
      simp only [M.liftO_eq] at h
      rcases M.mem_bind_trace h with hx | ⟨a, ha, hmem⟩
      · simp at hx
      · simp only [M.liftO_eq] at ha
        cases a with
        | none => exact ⟨rgs, cfgs, rfl, rfl, ha⟩
        | some found =>
          exfalso
          rcases M.mem_bind_trace hmem with hx | ⟨v, hv, hmem⟩
          · have := exposeRedisMetrics_trace env.clusterIDRes r found _ hx
            simp [Effect.isSetMetricCall] at this
          · cases v with
            | some e2 => simp at hmem
            | none =>
              rcases M.mem_bind_trace hmem with hx | ⟨st, hst, hmem⟩
              · simp at hx
              · by_cases hav : st = "available"
                · subst hav
                  simp only [ne_eq, not_true_eq_false, if_false, reduceIte] at hmem
                  rcases M.mem_bind_trace hmem with hx | ⟨iid, hiid, hmem⟩
                  · simp at hx
                  · rcases M.mem_bind_trace hmem with hx | ⟨aRes, haRes, hmem⟩
                    · rcases deleteAlert_trace_content env.alertGetRes env.alertDeleteRes iid _ hx with h | h <;> simp at h
                    · cases aRes with
                      | some e2 => simp at hmem
                      | none =>
                        rcases M.mem_bind_trace hmem with hx | ⟨u, hu, hmem⟩
                        · simp at hx
                        · cases hdel : env.deleteReplicationGroupRes with
                          | none => rw [hdel] at hmem; simp at hmem
                          | some e2 =>
                            rw [hdel] at hmem
                            by_cases hcode : e2.awsCode = some errCodeReplicationGroupNotFoundFault <;>
                              simp [hcode] at hmem
                · simp [hav] at hmem

/-- C6: when the remote replication group is observed absent, the delete
path removes the finalizer and persists the resource (exactly those two
local effects, zero remote delete calls), returning the empty status with
no error when the persist succeeds; and the finalizer-removal effect occurs
on no other path. -/
theorem deletePath_absent_removes_finalizer (env : DeleteEnv) (r : RedisCR)
    (cc : CreateReplicationGroupInput) (dc : DeleteReplicationGroupInput)
    (rgs : List ReplicationGroup)
    (cfgs : CreateReplicationGroupInput × DeleteReplicationGroupInput)
    (h1 : env.rgsRes = .ok rgs)
    (h2 : buildElasticacheDeleteConfig env.cacheNameRes env.snapshotIdentifierRes cc dc = .ok cfgs)
    (h3 : findReplicationGroup rgs cfgs.1.replicationGroupId = .ok none) :
    (deleteElasticacheCluster env r cc dc).2 =
      [.removeFinalizerLocal, .clientUpdateCall] ∧
    Effect.deleteReplicationGroupCall ∉ (deleteElasticacheCluster env r cc dc).2 ∧
    (env.clientUpdateRes = none → (deleteElasticacheCluster env r cc dc).1 = .ok ("", none)) ∧
    (∀ env' r' cc' dc',
      Effect.removeFinalizerLocal ∈ (deleteElasticacheCluster env' r' cc' dc').2 →
      ∃ rgs' cfgs', env'.rgsRes = .ok rgs' ∧
        buildElasticacheDeleteConfig env'.cacheNameRes env'.snapshotIdentifierRes cc' dc' = .ok cfgs' ∧
        findReplicationGroup rgs' cfgs'.1.replicationGroupId = .ok none) := by
  have htr : (deleteElasticacheCluster env r cc dc).2 =
      [.removeFinalizerLocal, .clientUpdateCall] := by
    unfold deleteElasticacheCluster
    rw [h1, h2]
    cases hcu : env.clientUpdateRes <;> simp [h3, hcu]
  refine ⟨htr, ?_, ?_, ?_⟩
  · rw [htr]; decide
  · intro hcu
    unfold deleteElasticacheCluster
    rw [h1, h2]
    simp [h3, hcu]
  · exact fun env' r' cc' dc' hmem =>
      deletePath_removeFinalizer_only_if_absent env' r' cc' dc' hmem

/-- C6 witness: against an empty remote listing, the delete path performs
exactly finalizer removal plus the persisting update and returns the empty
status without error. -/
theorem deletePath_absent_removes_finalizer_witness :
    (deleteElasticacheCluster envDeleteAbsentC rC cfgC deleteCfgC).2 =
      [.removeFinalizerLocal, .clientUpdateCall] ∧
    (deleteElasticacheCluster envDeleteAbsentC rC cfgC deleteCfgC).1 = .ok ("", none) := by
  have h := deletePath_absent_removes_finalizer envDeleteAbsentC rC cfgC deleteCfgC []
    (cfgC, { replicationGroupId := some "example-redis", retainPrimaryCluster := some false,
             finalSnapshotIdentifier := none })
    rfl rfl rfl
  exact ⟨h.1, h.2.2.1 rfl⟩

/-- Evaluation of the delete path when the group is present and available
and the alert rule deletion succeeds: alert get, alert delete, then the
remote delete call, with the remote delete's not-found error forgiven. -/
theorem deletePath_available_eq (env : DeleteEnv) (r : RedisCR)
    (cc : CreateReplicationGroupInput) (dc : DeleteReplicationGroupInput)
    (rgs : List ReplicationGroup)
    (cfgs : CreateReplicationGroupInput × DeleteReplicationGroupInput)
    (found : ReplicationGroup) (iid : String) (tr2 : List Effect)
    (h1 : env.rgsRes = .ok rgs)
    (h2 : buildElasticacheDeleteConfig env.cacheNameRes env.snapshotIdentifierRes cc dc = .ok cfgs)
    (h3 : findReplicationGroup rgs cfgs.1.replicationGroupId = .ok (some found))
    (h4 : exposeRedisMetrics env.clusterIDRes r found = (.ok none, tr2))
    (h5 : found.status = some "available")
    (h6 : found.replicationGroupId = some iid)
    (h7 : env.alertGetRes = none) (h8 : env.alertDeleteRes = none) :
    deleteElasticacheCluster env r cc dc =
      ((match env.deleteReplicationGroupRes with
        | none => Outcome.ok ("delete detected, deleteReplicationGroup started", none)
        | some e2 =>
          if e2.awsCode = some errCodeReplicationGroupNotFoundFault then
            Outcome.ok ("delete detected, deleteReplicationGroup started", none)
          else
            Outcome.ok ("failed to delete elasticache cluster : " ++ e2.message,
              errorUtilWrap (some e2) ("failed to delete elasticache cluster : " ++ e2.message))),
       tr2 ++ [.alertRuleGetCall ("cro-aws-elasticache-" ++ iid),
               .alertRuleDeleteCall ("cro-aws-elasticache-" ++ iid),
               .deleteReplicationGroupCall]) := by
  cases hd : env.deleteReplicationGroupRes with
  | none =>
    unfold deleteElasticacheCluster
    rw [h1, h2]
    simp [h3, h4, h5, h6, h7, h8, hd, Outcome.deref, DeleteElastiCacheAvailabilityAlert]
  | some e2 =>
    unfold deleteElasticacheCluster
    rw [h1, h2]
    by_cases hcode : e2.awsCode = some errCodeReplicationGroupNotFoundFault <;>
      simp [h3, h4, h5, h6, h7, h8, hd, hcode, Outcome.deref, DeleteElastiCacheAvailabilityAlert]

/-- C7: a remote delete failure with the replication-group-not-found AWS
error code is treated as success (the started status, no error); any other
delete-call failure is returned as an error. -/
theorem deletePath_notFound_treated_as_success (env : DeleteEnv) (r : RedisCR)
    (cc : CreateReplicationGroupInput) (dc : DeleteReplicationGroupInput)
    (rgs : List ReplicationGroup)
    (cfgs : CreateReplicationGroupInput × DeleteReplicationGroupInput)
    (found : ReplicationGroup) (iid : String) (tr2 : List Effect)
    (h1 : env.rgsRes = .ok rgs)
    (h2 : buildElasticacheDeleteConfig env.cacheNameRes env.snapshotIdentifierRes cc dc = .ok cfgs)
    (h3 : findReplicationGroup rgs cfgs.1.replicationGroupId = .ok (some found))
    (h4 : exposeRedisMetrics env.clusterIDRes r found = (.ok none, tr2))
    (h5 : found.status = some "available")
    (h6 : found.replicationGroupId = some iid)
    (h7 : env.alertGetRes = none) (h8 : env.alertDeleteRes = none) :
    (∀ m, env.deleteReplicationGroupRes = some (.aws errCodeReplicationGroupNotFoundFault m) →
      (deleteElasticacheCluster env r cc dc).1 =
        .ok ("delete detected, deleteReplicationGroup started", none)) ∧
    (∀ e2, env.deleteReplicationGroupRes = some e2 →
      e2.awsCode ≠ some errCodeReplicationGroupNotFoundFault →
      (deleteElasticacheCluster env r cc dc).1 =
        .ok ("failed to delete elasticache cluster : " ++ e2.message,
          some (.generic ("failed to delete elasticache cluster : " ++ e2.message ++
            ": " ++ e2.message)))) := by
  have heq := deletePath_available_eq env r cc dc rgs cfgs found iid tr2 h1 h2 h3 h4 h5 h6 h7 h8
  constructor
  · intro m hd
    rw [heq, hd]
    simp [GoErr.awsCode]
  · intro e2 hd hcode
    rw [heq, hd]
    simp [hcode, errorUtilWrap, GoErr.message]

/-- C7 witness: a delete-call failure carrying the not-found code yields
the started status with no error. -/
theorem deletePath_notFound_treated_as_success_witness :
    (deleteElasticacheCluster envDeleteNotFoundErrC rC cfgC deleteCfgC).1 =
      .ok ("delete detected, deleteReplicationGroup started", none) := by
  have h := deletePath_notFound_treated_as_success envDeleteNotFoundErrC rC cfgC deleteCfgC
    [rgAvailableC]
    (cfgC, { replicationGroupId := some "example-redis", retainPrimaryCluster := some false,
             finalSnapshotIdentifier := none })
    rgAvailableC "example-redis"
    [Effect.setMetricCall defaultRedisInfoMetricName
      [("clusterID", "clusterC"), ("resourceID", "example-redis"), ("namespace", "redis-ns"),
       ("instanceID", "example-redis"), ("status", "available")] none,
     Effect.setMetricCall defaultRedisAvailMetricName
      [("clusterID", "clusterC"), ("resourceID", "example-redis"), ("namespace", "redis-ns"),
       ("instanceID", "example-redis")] (some 1)]
    rfl rfl rfl rfl rfl rfl rfl rfl
  exact h.1 "replication group not found" rfl

/-- C9: on the delete path with the group available, the alert-rule
deletion strictly precedes the remote delete call; a failure to look up or
delete the alert rule is surfaced as an error and the remote delete call is
never issued in that case. -/
theorem deletePath_alert_deletion_precedes_delete (env : DeleteEnv) (r : RedisCR)
    (cc : CreateReplicationGroupInput) (dc : DeleteReplicationGroupInput)
    (rgs : List ReplicationGroup)
    (cfgs : CreateReplicationGroupInput × DeleteReplicationGroupInput)
    (found : ReplicationGroup) (iid : String) (tr2 : List Effect)
    (h1 : env.rgsRes = .ok rgs)
    (h2 : buildElasticacheDeleteConfig env.cacheNameRes env.snapshotIdentifierRes cc dc = .ok cfgs)
    (h3 : findReplicationGroup rgs cfgs.1.replicationGroupId = .ok (some found))
    (h4 : exposeRedisMetrics env.clusterIDRes r found = (.ok none, tr2))
    (h5 : found.status = some "available")
    (h6 : found.replicationGroupId = some iid) :
    (∀ e2, env.alertGetRes = some e2 →
      (∃ msg err, (deleteElasticacheCluster env r cc dc).1 = .ok (msg, some err)) ∧
      Effect.deleteReplicationGroupCall ∉ (deleteElasticacheCluster env r cc dc).2) ∧
    (∀ e2, env.alertGetRes = none → env.alertDeleteRes = some e2 →
      (∃ msg err, (deleteElasticacheCluster env r cc dc).1 = .ok (msg, some err)) ∧
      Effect.deleteReplicationGroupCall ∉ (deleteElasticacheCluster env r cc dc).2) ∧
    (env.alertGetRes = none → env.alertDeleteRes = none →
      (deleteElasticacheCluster env r cc dc).2 =
        tr2 ++ [.alertRuleGetCall ("cro-aws-elasticache-" ++ iid),
                .alertRuleDeleteCall ("cro-aws-elasticache-" ++ iid),
                .deleteReplicationGroupCall] ∧
      ∀ e ∈ tr2, e.isSetMetricCall = true) := by
  have htr2 : ∀ e ∈ tr2, e.isSetMetricCall = true := by
    intro e he
    have hm : e ∈ (exposeRedisMetrics env.clusterIDRes r found).2 := by rw [h4]; exact he
    exact exposeRedisMetrics_trace env.clusterIDRes r found e hm
  have keyGet : ∀ E : GoErr,
      DeleteElastiCacheAvailabilityAlert env.alertGetRes env.alertDeleteRes iid =
        (.ok (some E), [.alertRuleGetCall ("cro-aws-elasticache-" ++ iid)]) →
      deleteElasticacheCluster env r cc dc =
        (.ok ("failed to delete elasticache alert : " ++ E.message,
              some (.generic ("failed to delete elasticache alert : " ++ E.message ++ ": " ++ E.message))),
         tr2 ++ [.alertRuleGetCall ("cro-aws-elasticache-" ++ iid)]) := by
    intro E hE
    unfold deleteElasticacheCluster
    rw [h1, h2]
    simp [h3, h4, h5, h6, hE, Outcome.deref, errorUtilWrap]
  have keyDel : ∀ E : GoErr,
      DeleteElastiCacheAvailabilityAlert env.alertGetRes env.alertDeleteRes iid =
        (.ok (some E), [.alertRuleGetCall ("cro-aws-elasticache-" ++ iid),
                        .alertRuleDeleteCall ("cro-aws-elasticache-" ++ iid)]) →
      deleteElasticacheCluster env r cc dc =
        (.ok ("failed to delete elasticache alert : " ++ E.message,
              some (.generic ("failed to delete elasticache alert : " ++ E.message ++ ": " ++ E.message))),
         tr2 ++ [.alertRuleGetCall ("cro-aws-elasticache-" ++ iid),
                 .alertRuleDeleteCall ("cro-aws-elasticache-" ++ iid)]) := by
    intro E hE
    unfold deleteElasticacheCluster
    rw [h1, h2]
    simp [h3, h4, h5, h6, hE, Outcome.deref, errorUtilWrap]
  refine ⟨?_, ?_, ?_⟩
  · intro e2 hg
    have heq := keyGet
      (.generic ("exception calling DeleteElastiCacheAvailabilityAlert: " ++
        ("cro-aws-elasticache-" ++ iid) ++ ": " ++ e2.message))
      (by simp [DeleteElastiCacheAvailabilityAlert, hg])
    refine ⟨⟨_, _, by rw [heq]⟩, ?_⟩
    rw [heq]
    intro hmem
    simp only [List.mem_append, List.mem_singleton] at hmem
    rcases hmem with hmem | hmem
    · have := htr2 _ hmem; simp [Effect.isSetMetricCall] at this
    · simp at hmem
  · intro e2 hg hd
    have heq := keyDel
      (.generic ("exception calling DeleteElastiCacheAvailabilityAlert: " ++
        ("cro-aws-elasticache-" ++ iid) ++ ": " ++ e2.message))
      (by simp [DeleteElastiCacheAvailabilityAlert, hg, hd])
    refine ⟨⟨_, _, by rw [heq]⟩, ?_⟩
    rw [heq]
    intro hmem
    simp only [List.mem_append, List.mem_cons, List.mem_singleton] at hmem
    rcases hmem with hmem | hmem | hmem
    · have := htr2 _ hmem; simp [Effect.isSetMetricCall] at this
    · simp at hmem
    · simp at hmem
  · intro hg hd
    have heq := deletePath_available_eq env r cc dc rgs cfgs found iid tr2 h1 h2 h3 h4 h5 h6 hg hd
    exact ⟨by rw [heq], htr2⟩

/-- C9 witness: a failing alert-rule lookup on the delete path yields an
error and no remote delete call. -/
theorem deletePath_alert_deletion_precedes_delete_witness :
    (∃ msg err, (deleteElasticacheCluster envDeleteAlertMissingC rC cfgC deleteCfgC).1 =
      .ok (msg, some err)) ∧
    Effect.deleteReplicationGroupCall ∉
      (deleteElasticacheCluster envDeleteAlertMissingC rC cfgC deleteCfgC).2 := by
  have h := deletePath_alert_deletion_precedes_delete envDeleteAlertMissingC rC cfgC deleteCfgC
    [rgAvailableC]
    (cfgC, { replicationGroupId := some "example-redis", retainPrimaryCluster := some false,
             finalSnapshotIdentifier := none })
    rgAvailableC "example-redis"
    [Effect.setMetricCall defaultRedisInfoMetricName
      [("clusterID", "clusterC"), ("resourceID", "example-redis"), ("namespace", "redis-ns"),
       ("instanceID", "example-redis"), ("status", "available")] none,
     Effect.setMetricCall defaultRedisAvailMetricName
      [("clusterID", "clusterC"), ("resourceID", "example-redis"), ("namespace", "redis-ns"),
       ("instanceID", "example-redis")] (some 1)]
    rfl rfl rfl rfl rfl rfl
  exact h.1 (.generic "prometheusrules not found") rfl

theorem isAddTags_false_of_isSetMetric {e : Effect} (h : e.isSetMetricCall = true) :
    e.isAddTagsCall = false := by
  cases e <;> simp_all [Effect.isSetMetricCall, Effect.isAddTagsCall]

/-- C10: when the per-node describe reports a node status other than
"available", `TagElasticacheNode` returns the skip message with a nil
error (errorUtil.Wrap of a nil error is nil), so the create path's
per-node loop proceeds past the node and the tick can still return the
terminal "successfully created and tagged" status with zero tag
applications. -/
theorem tagSkip_nonAvailable_node_does_not_stop_create (env : CreateEnv) (r : RedisCR)
    (cfgIn cfg : CreateReplicationGroupInput) (rgs : List ReplicationGroup)
    (found : ReplicationGroup) (ng : NodeGroup) (m : NodeGroupMember)
    (out : DescribeCacheClustersOutput) (cc0 : CacheCluster) (ccRest : List CacheCluster)
    (s mcid cid iid addr : String) (port : Int) (ep : Endpoint) (tr1 tr2 : List Effect)
    (h1 : env.rgsRes = .ok rgs)
    (h2 : buildElasticacheCreateStrategy env.cacheNameRes cfgIn = .ok cfg)
    (h3 : findReplicationGroup rgs cfg.replicationGroupId = .ok (some found))
    (h4 : setRedisServiceMaintenanceMetric env.clusterIDRes env.describeServiceUpdatesRes = (.ok none, tr1))
    (h5 : exposeRedisMetrics env.clusterIDRes r found = (.ok none, tr2))
    (h6 : found.status = some "available")
    (h7 : env.clusterIDRes = .ok cid)
    (h8 : found.replicationGroupId = some iid)
    (h9 : env.clientCreateAlertRes = none)
    (h10 : buildElasticacheUpdateStrategy cfg found = .ok none)
    (h11 : found.nodeGroups = [ng])
    (h12 : ng.status = some "available")
    (h13 : ng.nodeGroupMembers = [m])
    (h14 : (env.tagEnv m).describeCacheClustersRes = .ok out)
    (h15 : out.cacheClusters = cc0 :: ccRest)
    (h16 : cc0.cacheClusterStatus = some s)
    (h17 : s ≠ "available")
    (h18 : m.cacheClusterId = some mcid)
    (h19 : ng.primaryEndpoint = some ep)
    (h20 : ep.address = some addr)
    (h21 : ep.port = some port) :
    TagElasticacheNode (env.tagEnv m) r m =
      (.ok (mcid ++ " status is " ++ s ++ ", skipping adding tags", none),
       [.describeCacheClustersCall]) ∧
    (createElasticacheCluster env r cfgIn).1 =
      .ok (some { uri := addr, port := port },
        "successfully created and tagged, aws elasticache status is available", none) ∧
    ∀ e ∈ (createElasticacheCluster env r cfgIn).2, e.isAddTagsCall = false := by
  have htag : TagElasticacheNode (env.tagEnv m) r m =
      (.ok (mcid ++ " status is " ++ s ++ ", skipping adding tags", none),
       [.describeCacheClustersCall]) := by
    unfold TagElasticacheNode
    rw [h14]
    simp [h15, h16, h17, h18, Outcome.index0, Outcome.deref, errorUtilWrap]
  have hcreate : createElasticacheCluster env r cfgIn =
      (.ok (some { uri := addr, port := port },
        "successfully created and tagged, aws elasticache status is available", none),
       tr1 ++ (tr2 ++ [.alertRuleCreateCall ("cro-aws-elasticache-" ++ iid),
                       .describeCacheClustersCall])) := by
    unfold createElasticacheCluster
    rw [h1, h2]
    simp [h3, h4, h5, h6, h8, Outcome.deref]
    simp [h7, CreateElastiCacheAvailabilityAlert, h9, h10, h11, h12, tagNodesLoop, h13, htag,
      Outcome.index0, h19, h20, h21]
  refine ⟨htag, by rw [hcreate], ?_⟩
  rw [hcreate]
  intro e he
  simp only [List.mem_append, List.mem_cons, List.mem_singleton] at he
  rcases he with he | he | he | he
  · have hm : e ∈ (setRedisServiceMaintenanceMetric env.clusterIDRes env.describeServiceUpdatesRes).2 := by
      rw [h4]; exact he
    rcases setRedisServiceMaintenanceMetric_trace env.clusterIDRes env.describeServiceUpdatesRes e hm with h | h
    · exact isAddTags_false_of_isSetMetric h
    · subst h; rfl
  · have hm : e ∈ (exposeRedisMetrics env.clusterIDRes r found).2 := by rw [h5]; exact he
    exact isAddTags_false_of_isSetMetric (exposeRedisMetrics_trace env.clusterIDRes r found e hm)
  · subst he; rfl
  · rcases he with he | he
    · subst he; rfl
    · simp at he

/-- C10 witness: with a single node whose per-node describe reports
"creating", the node is skipped and the create tick still reaches the
terminal created-and-tagged status. -/
theorem tagSkip_nonAvailable_node_does_not_stop_create_witness :
    (createElasticacheCluster envCreateSkipTagC rC cfgC).1 =
      .ok (some { uri := "example.cache.amazonaws.com", port := 6379 },
        "successfully created and tagged, aws elasticache status is available", none) ∧
    (TagElasticacheNode (envCreateSkipTagC.tagEnv memberC) rC memberC).1 =
      .ok ("example-redis-001 status is creating, skipping adding tags", none) := by
  have h := tagSkip_nonAvailable_node_does_not_stop_create envCreateSkipTagC rC cfgC cfgBuiltC
    [rgAvailableC] rgAvailableC ngAvailableC memberC
    { cacheClusters := [{ cacheClusterStatus := some "creating" }] }
    { cacheClusterStatus := some "creating" } []
    "creating" "example-redis-001" "clusterC" "example-redis" "example.cache.amazonaws.com" 6379
    { address := some "example.cache.amazonaws.com", port := some 6379 }
    [Effect.describeServiceUpdatesCall]
    [Effect.setMetricCall defaultRedisInfoMetricName
      [("clusterID", "clusterC"), ("resourceID", "example-redis"), ("namespace", "redis-ns"),
       ("instanceID", "example-redis"), ("status", "available")] none,
     Effect.setMetricCall defaultRedisAvailMetricName
      [("clusterID", "clusterC"), ("resourceID", "example-redis"), ("namespace", "redis-ns"),
       ("instanceID", "example-redis")] (some 1)]
    rfl rfl rfl rfl rfl rfl rfl rfl rfl rfl rfl rfl rfl rfl rfl rfl (by decide) rfl rfl rfl rfl
  refine ⟨by rw [h.2.1], ?_⟩
  rw [h.1]
  rfl

/-! ### No-panic development (C4) -/

theorem findReplicationGroup_ok (rgs : List ReplicationGroup) (id : String)
    (h : ∀ g ∈ rgs, g.replicationGroupId.isSome = true) :
    ∃ res, findReplicationGroup rgs (some id) = .ok res := by
  induction rgs with
  | nil => exact ⟨none, rfl⟩
  | cons c rest ih =>
    obtain ⟨cid, hcid⟩ := Option.isSome_iff_exists.mp (h c (by simp))
    obtain ⟨res, hres⟩ := ih (fun g hg => h g (by simp [hg]))
    by_cases he : cid = id
    · exact ⟨some c, by simp [findReplicationGroup, hcid, he]⟩
    · exact ⟨res, by simp [findReplicationGroup, hcid, he, hres]⟩

theorem findReplicationGroup_mem (rgs : List ReplicationGroup) (o : Option String)
    (g : ReplicationGroup) (h : findReplicationGroup rgs o = .ok (some g)) : g ∈ rgs := by
  induction rgs with
  | nil => simp [findReplicationGroup] at h
  | cons c rest ih =>
    simp only [findReplicationGroup] at h
    split at h
    · split at h
      · simp only [Outcome.ok.injEq, Option.some.injEq] at h
        subst h
        exact List.mem_cons_self c rest
      · exact List.mem_cons_of_mem _ (ih h)
    · simp at h

theorem serviceUpdateLabels_ok (cid : String) (su : ServiceUpdate)
    (h : wfServiceUpdate su = true) : ∃ ls, serviceUpdateLabels cid su = .ok ls := by
  simp only [wfServiceUpdate, Bool.and_eq_true, and_assoc, Option.isSome_iff_exists] at h
  obtain ⟨⟨x1, hx1⟩, ⟨x2, hx2⟩, ⟨x3, hx3⟩, ⟨x4, hx4⟩, ⟨x5, hx5⟩, ⟨x6, hx6⟩, ⟨x7, hx7⟩,
    ⟨x8, hx8⟩, ⟨x9, hx9⟩, ⟨x10, hx10⟩, ⟨x11, hx11⟩⟩ := h
  simp only [serviceUpdateLabels, hx1, hx2, hx3, hx4, hx5, hx6, hx7, hx8, hx9, hx10, hx11]
  exact ⟨_, rfl⟩

theorem setMaintenanceLoop_ok (cid : String) (l : List ServiceUpdate)
    (h : ∀ su ∈ l, wfServiceUpdate su = true) :
    ∃ tr, setMaintenanceLoop cid l = (.ok none, tr) := by
  induction l with
  | nil => exact ⟨[], rfl⟩
  | cons su rest ih =>
    obtain ⟨ls, hls⟩ := serviceUpdateLabels_ok cid su (h su (by simp))
    obtain ⟨tr, htr⟩ := ih (fun x hx => h x (by simp [hx]))
    have hrec := h su (by simp)
    simp only [wfServiceUpdate, Bool.and_eq_true, and_assoc, Option.isSome_iff_exists] at hrec
    obtain ⟨ts, hts⟩ := hrec.2.2.2.2.2.2.1
    simp only [setMaintenanceLoop, hls, hts, htr, Outcome.deref]
    exact ⟨_, rfl⟩

theorem setRedisServiceMaintenanceMetric_ok (cidRes : Except GoErr String)
    (susRes : Except GoErr (List ServiceUpdate))
    (h : ∀ sus, susRes = .ok sus → ∀ su ∈ sus, wfServiceUpdate su = true) :
    ∃ v tr, setRedisServiceMaintenanceMetric cidRes susRes = (.ok v, tr) := by
  cases cidRes with
  | error e => exact ⟨_, _, rfl⟩
  | ok cid =>
    cases hs : susRes with
    | error e =>
      simp only [setRedisServiceMaintenanceMetric]
      exact ⟨_, _, rfl⟩
    | ok sus =>
      obtain ⟨tr, htr⟩ := setMaintenanceLoop_ok cid sus (h sus hs)
      simp only [setRedisServiceMaintenanceMetric, htr]
      exact ⟨_, _, rfl⟩

theorem exposeRedisMetrics_ok (cidRes : Except GoErr String) (cr : RedisCR)
    (inst : ReplicationGroup) (iid st : String)
    (hid : inst.replicationGroupId = some iid) (hst : inst.status = some st) :
    ∃ v tr, exposeRedisMetrics cidRes cr inst = (.ok v, tr) := by
  cases cidRes with
  | error e => exact ⟨_, _, rfl⟩
  | ok cid =>
    by_cases hav : st = "available"
    · simp only [exposeRedisMetrics, buildRedisInfoMetricLables, buildRedisGenericMetricLabels,
        hid, hst, hav]
      exact ⟨_, _, rfl⟩
    · simp only [exposeRedisMetrics, buildRedisInfoMetricLables, buildRedisGenericMetricLabels,
        hid, hst]
      rw [if_pos hav]
      exact ⟨_, _, rfl⟩

theorem tagSnapshotsLoop_ok (env : TagEnv) (region account : String)
    (tags : List (String × String)) (l : List Snapshot)
    (h : ∀ s ∈ l, s.snapshotName.isSome = true) :
    ∃ v tr, tagSnapshotsLoop env region account tags l = (.ok v, tr) := by
  induction l with
  | nil => exact ⟨none, [], rfl⟩
  | cons s rest ih =>
    obtain ⟨nm, hnm⟩ := Option.isSome_iff_exists.mp (h s (by simp))
    obtain ⟨v, tr, htr⟩ := ih (fun x hx => h x (by simp [hx]))
    simp only [tagSnapshotsLoop, hnm, Outcome.deref, M.liftO_eq, M.emit_eq, M.bind_okPair]
    cases har : env.addTagsSnapshotRes
        ("arn:aws:elasticache:" ++ region ++ ":" ++ account ++ ":snapshot:" ++ nm) with
    | some e => exact ⟨_, _, rfl⟩
    | none =>
      simp only [htr]
      exact ⟨_, _, rfl⟩

theorem createAlert_ok (res : Option GoErr) (r : RedisCR) (iid cid : String) :
    ∃ v, CreateElastiCacheAvailabilityAlert res r iid cid =
      (.ok v, [.alertRuleCreateCall ("cro-aws-elasticache-" ++ iid)]) := by
  cases res with
  | none => exact ⟨none, rfl⟩
  | some e =>
    cases he : e.isAlreadyExists <;>
      (simp only [CreateElastiCacheAvailabilityAlert, he, M.emit_eq, M.bind_okPair];
       exact ⟨_, rfl⟩)

theorem deleteAlert_ok (gRes dRes : Option GoErr) (iid : String) :
    ∃ v tr, DeleteElastiCacheAvailabilityAlert gRes dRes iid = (.ok v, tr) := by
  cases gRes with
  | some e => exact ⟨_, _, rfl⟩
  | none =>
    cases dRes with
    | some e => exact ⟨_, _, rfl⟩
    | none => exact ⟨_, _, rfl⟩

theorem TagElasticacheNode_ok (env : TagEnv) (r : RedisCR) (m : NodeGroupMember)
    (hT : wfTagEnv env = true) (hm : wfNodeGroupMember m = true) :
    ∃ v tr, TagElasticacheNode env r m = (.ok v, tr) := by
  simp only [wfTagEnv, Bool.and_eq_true, and_assoc] at hT
  obtain ⟨hT1, hT2, hT3⟩ := hT
  simp only [wfNodeGroupMember, Bool.and_eq_true, and_assoc, Option.isSome_iff_exists] at hm
  obtain ⟨⟨mcid, hmcid⟩, hz⟩ := hm
  cases hdcc : env.describeCacheClustersRes with
  | error e =>
    simp only [TagElasticacheNode, hdcc, M.emit_eq, M.bind_okPair]
    exact ⟨_, _, rfl⟩
  | ok out =>
    simp only [hdcc] at hT1
    cases hcl : out.cacheClusters with
    | nil => simp only [hcl] at hT1; simp at hT1
    | cons c0 rest0 =>
      simp only [hcl] at hT1
      obtain ⟨s, hs⟩ := Option.isSome_iff_exists.mp (by simpa using hT1)
      by_cases hsav : s = "available"
      · subst hsav
        cases hci : env.getCallerIdentityRes with
        | error e =>
          simp only [TagElasticacheNode, hdcc, hcl, hs, Outcome.index0, Outcome.deref, hci,
            M.liftO_eq, M.emit_eq, M.bind_okPair]
          exact ⟨_, _, rfl⟩
        | ok ident =>
          simp only [hci] at hT2
          obtain ⟨acct, hacct⟩ := Option.isSome_iff_exists.mp (by simpa using hT2)
          cases hzo : m.preferredAvailabilityZone with
          | none => simp only [hzo] at hz; simp at hz
          | some z =>
            simp only [hzo] at hz
            simp only [decide_eq_true_eq] at hz
            have hslice : goSliceTrimLast z = .ok (z.take (z.length - 1)) := by
              simp [goSliceTrimLast, hz]
            cases hcid2 : env.clusterIDRes with
            | error e =>
              simp only [TagElasticacheNode, hdcc, hcl, hs, Outcome.index0, Outcome.deref,
                hci, hzo, hacct, hmcid, hslice, hcid2, M.liftO_eq, M.emit_eq, M.bind_okPair]
              exact ⟨_, _, rfl⟩
            | ok clusterID =>
              cases hat : env.addTagsNodeRes with
              | some e =>
                simp only [TagElasticacheNode, hdcc, hcl, hs, Outcome.index0, Outcome.deref,
                  hci, hzo, hacct, hmcid, hslice, hcid2, hat, M.liftO_eq, M.emit_eq, M.bind_okPair]
                exact ⟨_, _, rfl⟩
              | none =>
                cases hdsr : env.describeSnapshotsRes with
                | mk outOpt errOpt =>
                  simp only [hdsr] at hT3
                  cases outOpt with
                  | none => simp at hT3
                  | some out2 =>
                    cases hsn : out2.snapshots with
                    | none =>
                      simp only [TagElasticacheNode, hdcc, hcl, hs, Outcome.index0, Outcome.deref,
                        hci, hzo, hacct, hmcid, hslice, hcid2, hat, hdsr, hsn,
                        M.liftO_eq, M.emit_eq, M.bind_okPair]
                      exact ⟨_, _, rfl⟩
                    | some snaps =>
                      have hsnwf : ∀ x ∈ snaps, x.snapshotName.isSome = true := by
                        simp only [hsn] at hT3
                        simpa [wfSnapshot, List.all_eq_true] using hT3
                      obtain ⟨lv, ltr, hloop⟩ := tagSnapshotsLoop_ok env
                        (z.take (z.length - 1)) acct
                        (if r.productNameLabel ≠ "" then
                          [(env.organizationTag ++ "clusterID", clusterID),
                           (env.organizationTag ++ "resource-type", r.specType),
                           (env.organizationTag ++ "resource-name", r.name)] ++
                          [(env.organizationTag ++ "product-name", r.productNameLabel)]
                         else
                          [(env.organizationTag ++ "clusterID", clusterID),
                           (env.organizationTag ++ "resource-type", r.specType),
                           (env.organizationTag ++ "resource-name", r.name)])
                        snaps hsnwf
                      simp only [TagElasticacheNode, hdcc, hcl, hs, Outcome.index0, Outcome.deref,
                        hci, hzo, hacct, hmcid, hslice, hcid2, hat, hdsr, hsn, hloop,
                        M.liftO_eq, M.emit_eq, M.bind_okPair]
                      cases lv with
                      | some p => exact ⟨_, _, rfl⟩
                      | none => exact ⟨_, _, rfl⟩
      · simp only [TagElasticacheNode, hdcc, hcl, hs, Outcome.index0, Outcome.deref, hmcid,
          M.liftO_eq, M.emit_eq, M.bind_okPair]
        rw [if_pos hsav]
        exact ⟨_, _, rfl⟩

theorem tagNodesLoop_ok (env : CreateEnv) (r : RedisCR) (l : List NodeGroupMember)
    (h : ∀ m ∈ l, wfNodeGroupMember m = true ∧ wfTagEnv (env.tagEnv m) = true) :
    ∃ v tr, tagNodesLoop env r l = (.ok v, tr) := by
  induction l with
  | nil => exact ⟨none, [], rfl⟩
  | cons m rest ih =>
    obtain ⟨hm, hT⟩ := h m (by simp)
    obtain ⟨p, ptr, hp⟩ := TagElasticacheNode_ok (env.tagEnv m) r m hT hm
    obtain ⟨v, tr, htr⟩ := ih (fun x hx => h x (by simp [hx]))
    simp only [tagNodesLoop, hp, M.bind_okPair]
    cases hp2 : p.2 with
    | some e => exact ⟨_, _, rfl⟩
    | none =>
      simp only [htr]
      exact ⟨_, _, rfl⟩

theorem buildDelete_ok_exists (nm ts : String) (cc : CreateReplicationGroupInput)
    (dc : DeleteReplicationGroupInput) :
    ∃ cfgs, buildElasticacheDeleteConfig (.ok nm) (.ok ts) cc dc = .ok cfgs := by
  simp only [buildElasticacheDeleteConfig]
  exact ⟨_, rfl⟩

theorem buildDelete_ok_id_isSome (nm ts : String) (cc : CreateReplicationGroupInput)
    (dc : DeleteReplicationGroupInput)
    (cfgs : CreateReplicationGroupInput × DeleteReplicationGroupInput)
    (h : buildElasticacheDeleteConfig (.ok nm) (.ok ts) cc dc = .ok cfgs)
    (hwf : (cc.replicationGroupId.isSome || dc.replicationGroupId.isNone) = true) :
    cfgs.1.replicationGroupId.isSome = true := by
  cases hdid : dc.replicationGroupId with
  | none =>
    cases hcc : cc.replicationGroupId with
    | none =>
      simp only [buildElasticacheDeleteConfig, hdid, hcc, Except.ok.injEq] at h
      rw [← h]
      simp
    | some x =>
      simp only [buildElasticacheDeleteConfig, hdid, hcc, Except.ok.injEq] at h
      rw [← h]
      simp [hcc]
  | some y =>
    cases hcc : cc.replicationGroupId with
    | none => simp [hcc, hdid] at hwf
    | some x =>
      simp only [buildElasticacheDeleteConfig, hdid, hcc, Except.ok.injEq] at h
      rw [← h]
      simp [hcc]

theorem createElasticacheCluster_noPanic (env : CreateEnv) (r : RedisCR)
    (cfgIn : CreateReplicationGroupInput) (hwf : wfCreateEnv env = true) :
    ∃ v tr, createElasticacheCluster env r cfgIn = (.ok v, tr) := by
  simp only [wfCreateEnv, Bool.and_eq_true] at hwf
  obtain ⟨hw1, hw2⟩ := hwf
  cases h1 : env.rgsRes with
  | error e =>
    simp only [createElasticacheCluster, h1]
    exact ⟨_, _, rfl⟩
  | ok rgs =>
    simp only [h1, List.all_eq_true] at hw1
    cases h2c : env.cacheNameRes with
    | error e =>
      simp only [createElasticacheCluster, h1, h2c, buildCreate_error_eq]
      exact ⟨_, _, rfl⟩
    | ok nm =>
      have hbuild := buildCreate_ok_eq nm cfgIn
      have hids : ∀ g ∈ rgs, g.replicationGroupId.isSome = true := by
        intro g hg
        have hgw := hw1 g hg
        simp only [wfReplicationGroupCreate, Bool.and_eq_true, and_assoc] at hgw
        exact hgw.1
      obtain ⟨res, hfind⟩ := findReplicationGroup_ok rgs (cfgIn.replicationGroupId.getD nm) hids
      cases res with
      | none =>
        cases hcr : env.createReplicationGroupRes with
        | some e =>
          simp only [createElasticacheCluster, h1, h2c, hbuild, hfind, hcr,
            M.liftO_eq, M.emit_eq, M.bind_okPair]
          exact ⟨_, _, rfl⟩
        | none =>
          simp only [createElasticacheCluster, h1, h2c, hbuild, hfind, hcr,
            M.liftO_eq, M.emit_eq, M.bind_okPair]
          exact ⟨_, _, rfl⟩
      | some found =>
        have hfm := findReplicationGroup_mem rgs _ found hfind
        have hfw := hw1 found hfm
        simp only [wfReplicationGroupCreate, Bool.and_eq_true, and_assoc,
          Option.isSome_iff_exists] at hfw
        obtain ⟨⟨fid, hfid⟩, ⟨fst, hfst⟩, ⟨fnt, hfnt⟩, ⟨frl, hfrl⟩, hng⟩ := hfw
        have hsus : ∀ sus, env.describeServiceUpdatesRes = .ok sus →
            ∀ su ∈ sus, wfServiceUpdate su = true := by
          intro sus hsus2
          simp only [hsus2] at hw2
          simpa [List.all_eq_true] using hw2
        obtain ⟨mv, mtr, hmaint⟩ :=
          setRedisServiceMaintenanceMetric_ok env.clusterIDRes env.describeServiceUpdatesRes hsus
        cases mv with
        | some e =>
          simp only [createElasticacheCluster, h1, h2c, hbuild, hfind, hmaint,
            M.liftO_eq, M.bind_okPair]
          exact ⟨_, _, rfl⟩
        | none =>
          obtain ⟨ev, etr, hexpose⟩ :=
            exposeRedisMetrics_ok env.clusterIDRes r found fid fst hfid hfst
          cases ev with
          | some e =>
            simp only [createElasticacheCluster, h1, h2c, hbuild, hfind, hmaint, hexpose,
              M.liftO_eq, M.bind_okPair]
            exact ⟨_, _, rfl⟩
          | none =>
            by_cases hav : fst = "available"
            · subst hav
              simp only [createElasticacheCluster, h1, h2c, hbuild, hfind, hmaint, hexpose,
                hfst, hfid, Outcome.deref, M.liftO_eq, M.emit_eq, M.bind_okPair]
              cases hcid : env.clusterIDRes with
              | error e => exact ⟨_, _, rfl⟩
              | ok cid =>
                obtain ⟨av, halert⟩ := createAlert_ok env.clientCreateAlertRes r fid cid
                obtain ⟨ec, hdrift⟩ : ∃ ec, buildElasticacheUpdateStrategy
                    { replicationGroupId := some (cfgIn.replicationGroupId.getD nm),
                      replicationGroupDescription :=
                        some (cfgIn.replicationGroupDescription.getD defaultDescription),
                      cacheNodeType := some (cfgIn.cacheNodeType.getD defaultCacheNodeType),
                      engine := some "redis",
                      engineVersion := some (cfgIn.engineVersion.getD defaultEngineVersion),
                      numCacheClusters := some (cfgIn.numCacheClusters.getD defaultNumCacheClusters),
                      snapshotRetentionLimit :=
                        some (cfgIn.snapshotRetentionLimit.getD defaultSnapshotRetention),
                      automaticFailoverEnabled := some true } found = .ok ec :=
                  ⟨_, buildUpdate_eq _ found _ fnt _ frl rfl hfnt rfl hfrl⟩
                simp only [halert, hdrift, Outcome.deref, Outcome.index0,
                  M.liftO_eq, M.emit_eq, M.bind_okPair]
                cases av with
                | some e => exact ⟨_, _, rfl⟩
                | none =>
                  cases ec with
                  | some ecc =>
                    cases hmod : env.modifyRes with
                    | some e => exact ⟨_, _, rfl⟩
                    | none => exact ⟨_, _, rfl⟩
                  | none =>
                    cases hngs : found.nodeGroups with
                    | nil => simp only [hngs] at hng; simp at hng
                    | cons ng restng =>
                      simp only [hngs] at hng
                      simp only [wfNodeGroup, Bool.and_eq_true, and_assoc,
                        Option.isSome_iff_exists] at hng
                      obtain ⟨⟨ngst, hngst⟩, hep, hmem⟩ := hng
                      by_cases hngav : ngst = "available"
                      · subst hngav
                        have hms : ∀ x ∈ ng.nodeGroupMembers,
                            wfNodeGroupMember x = true ∧ wfTagEnv (env.tagEnv x) = true := by
                          intro x hx
                          have hall := hmem
                          simp only [List.all_eq_true, Bool.and_eq_true] at hall
                          exact hall x hx
                        obtain ⟨tv, ttr, hloop⟩ := tagNodesLoop_ok env r ng.nodeGroupMembers hms
                        cases hpe : ng.primaryEndpoint with
                        | none => simp only [hpe] at hep; simp at hep
                        | some ep =>
                          simp only [hpe] at hep
                          simp only [Bool.and_eq_true, Option.isSome_iff_exists] at hep
                          obtain ⟨⟨addr, haddr⟩, prt, hprt⟩ := hep
                          simp only [hngst, hloop, hpe, haddr, hprt, Outcome.index0, Outcome.deref,
                            M.liftO_eq, M.emit_eq, M.bind_okPair]
                          cases tv with
                          | some p => exact ⟨_, _, rfl⟩
                          | none => exact ⟨_, _, rfl⟩
                      · simp only [hngst, Outcome.index0, Outcome.deref,
                          M.liftO_eq, M.emit_eq, M.bind_okPair]
                        rw [if_pos hngav]
                        exact ⟨_, _, rfl⟩
            · simp only [createElasticacheCluster, h1, h2c, hbuild, hfind, hmaint, hexpose,
                hfst, Outcome.deref, M.liftO_eq, M.bind_okPair]
              rw [if_pos hav]
              exact ⟨_, _, rfl⟩

theorem deleteElasticacheCluster_noPanic (env : DeleteEnv) (r : RedisCR)
    (cc : CreateReplicationGroupInput) (dc : DeleteReplicationGroupInput)
    (hwf : wfDeleteEnv env cc dc = true) :
    ∃ v tr, deleteElasticacheCluster env r cc dc = (.ok v, tr) := by
  simp only [wfDeleteEnv, Bool.and_eq_true] at hwf
  obtain ⟨hw1, hw2⟩ := hwf
  cases h1 : env.rgsRes with
  | error e =>
    simp only [deleteElasticacheCluster, h1]
    exact ⟨_, _, rfl⟩
  | ok rgs =>
    simp only [h1, List.all_eq_true] at hw1
    cases h2c : env.cacheNameRes with
    | error e =>
      simp only [deleteElasticacheCluster, h1, h2c, buildElasticacheDeleteConfig]
      exact ⟨_, _, rfl⟩
    | ok nm =>
      cases h3c : env.snapshotIdentifierRes with
      | error e =>
        simp only [deleteElasticacheCluster, h1, h2c, h3c, buildElasticacheDeleteConfig]
        exact ⟨_, _, rfl⟩
      | ok ts =>
        obtain ⟨cfgs, hbuild⟩ := buildDelete_ok_exists nm ts cc dc
        obtain ⟨theId, hTheId⟩ := Option.isSome_iff_exists.mp
          (buildDelete_ok_id_isSome nm ts cc dc cfgs hbuild hw2)
        have hids : ∀ g ∈ rgs, g.replicationGroupId.isSome = true := by
          intro g hg
          have hgw := hw1 g hg
          simp only [wfReplicationGroupDelete, Bool.and_eq_true] at hgw
          exact hgw.1
        obtain ⟨res, hfind⟩ := findReplicationGroup_ok rgs theId hids
        cases res with
        | none =>
          cases hcu : env.clientUpdateRes with
          | some e =>
            simp only [deleteElasticacheCluster, h1, h2c, h3c, hbuild, hTheId, hfind, hcu,
              M.liftO_eq, M.emit_eq, M.bind_okPair]
            exact ⟨_, _, rfl⟩
          | none =>
            simp only [deleteElasticacheCluster, h1, h2c, h3c, hbuild, hTheId, hfind, hcu,
              M.liftO_eq, M.emit_eq, M.bind_okPair]
            exact ⟨_, _, rfl⟩
        | some found =>
          have hfm := findReplicationGroup_mem rgs _ found hfind
          have hfw := hw1 found hfm
          simp only [wfReplicationGroupDelete, Bool.and_eq_true,
            Option.isSome_iff_exists] at hfw
          obtain ⟨⟨fid, hfid⟩, fst, hfst⟩ := hfw
          obtain ⟨ev, etr, hexpose⟩ :=
            exposeRedisMetrics_ok env.clusterIDRes r found fid fst hfid hfst
          cases ev with
          | some e =>
            simp only [deleteElasticacheCluster, h1, h2c, h3c, hbuild, hTheId, hfind, hexpose,
              M.liftO_eq, M.bind_okPair]
            exact ⟨_, _, rfl⟩
          | none =>
            by_cases hav : fst = "available"
            · subst hav
              obtain ⟨av, atr, halert⟩ :=
                deleteAlert_ok env.alertGetRes env.alertDeleteRes fid
              cases av with
              | some e =>
                simp only [deleteElasticacheCluster, h1, h2c, h3c, hbuild, hTheId, hfind,
                  hexpose, hfst, hfid, halert, Outcome.deref, M.liftO_eq, M.bind_okPair]
                exact ⟨_, _, rfl⟩
              | none =>
                cases hdel : env.deleteReplicationGroupRes with
                | none =>
                  simp only [deleteElasticacheCluster, h1, h2c, h3c, hbuild, hTheId, hfind,
                    hexpose, hfst, hfid, halert, hdel, Outcome.deref,
                    M.liftO_eq, M.emit_eq, M.bind_okPair]
                  exact ⟨_, _, rfl⟩
                | some e2 =>
                  by_cases hcode : e2.awsCode = some errCodeReplicationGroupNotFoundFault
                  · simp only [deleteElasticacheCluster, h1, h2c, h3c, hbuild, hTheId, hfind,
                      hexpose, hfst, hfid, halert, hdel, Outcome.deref,
                      M.liftO_eq, M.emit_eq, M.bind_okPair]
                    rw [if_pos hcode]
                    exact ⟨_, _, rfl⟩
                  · simp only [deleteElasticacheCluster, h1, h2c, h3c, hbuild, hTheId, hfind,
                      hexpose, hfst, hfid, halert, hdel, Outcome.deref,
                      M.liftO_eq, M.emit_eq, M.bind_okPair]
                    rw [if_neg hcode]
                    exact ⟨_, _, rfl⟩
            · simp only [deleteElasticacheCluster, h1, h2c, h3c, hbuild, hTheId, hfind,
                hexpose, hfst, Outcome.deref, M.liftO_eq, M.bind_okPair]
              rw [if_pos hav]
              exact ⟨_, _, rfl⟩

/-- C4 counterexample: with the observed replication group "available", no
drift, and an empty NodeGroups list, the create path aborts with an
index-out-of-range panic instead of returning a structured error. -/
theorem createElasticacheCluster_crashes_on_empty_nodeGroups :
    (createElasticacheCluster envCreateEmptyNodeGroupsC rC cfgC).1 =
      .crash "index out of range" := rfl

/-- C4 (amended): the create, delete and tagging operations never panic on
well-formed observed remote data — every dereferenced pointer field
present, non-empty NodeGroups / CacheClusters lists, a present
describe-snapshots output — and on such data every remote-call failure is
returned as a value rather than aborting; but with an empty NodeGroups list
(or an empty CacheClusters list) the code panics via unchecked indexing. -/
theorem provider_noPanic_on_wellFormed_data :
    (∀ env r cfgIn, wfCreateEnv env = true →
      (createElasticacheCluster env r cfgIn).1.isOk = true) ∧
    (∀ env r cc dc, wfDeleteEnv env cc dc = true →
      (deleteElasticacheCluster env r cc dc).1.isOk = true) ∧
    (∀ tenv r m, wfTagEnv tenv = true → wfNodeGroupMember m = true →
      (TagElasticacheNode tenv r m).1.isOk = true) := by
  refine ⟨?_, ?_, ?_⟩
  · intro env r cfgIn h
    obtain ⟨v, tr, heq⟩ := createElasticacheCluster_noPanic env r cfgIn h
    rw [heq]
    rfl
  · intro env r cc dc h
    obtain ⟨v, tr, heq⟩ := deleteElasticacheCluster_noPanic env r cc dc h
    rw [heq]
    rfl
  · intro tenv r m hT hm
    obtain ⟨v, tr, heq⟩ := TagElasticacheNode_ok tenv r m hT hm
    rw [heq]
    rfl

/-- C4 witness: well-formed fixtures for all three operations. -/
theorem provider_noPanic_on_wellFormed_data_witness :
    (createElasticacheCluster envCreateOkC rC cfgC).1.isOk = true ∧
    (deleteElasticacheCluster envDeleteAbsentC rC cfgC deleteCfgC).1.isOk = true ∧
    (TagElasticacheNode tagEnvOkC rC memberC).1.isOk = true :=
  ⟨provider_noPanic_on_wellFormed_data.1 envCreateOkC rC cfgC (by rfl),
   provider_noPanic_on_wellFormed_data.2.1 envDeleteAbsentC rC cfgC deleteCfgC (by rfl),
   provider_noPanic_on_wellFormed_data.2.2 tagEnvOkC rC memberC (by rfl) (by rfl)⟩

end CRO

